import Mathlib

/-!
Shallow embedding of the task-management backend (NestJS + Prisma/MySQL).

Source files embedded here:
- Prisma schema (`User`, `Task` models, `UserRole` enum, `onDelete: Cascade`)
- `TasksService` (create / getTasks / getTaskById / updateTask / deleteTask /
  addAttachment / getAttachment / removeAttachment)
- `AuthService` (register / login / buildUserResponse / generateToken)
- `JwtStrategy.validate`
- `ProfileService` (getProfile / updateProfile / updateProfilePicture /
  getProfilePicture / checkForDuplicates)
- `UsersService` (create / findAll / findOne / update / updateRole / remove)

Conventions of the embedding:
- The database is a `DB` value (lists of rows plus AUTO_INCREMENT counters);
  every Prisma query is explicit list traversal.
- NestJS `HttpException`s become the `Err` inductive; `Err.statusCode` is the
  NestJS exception-to-HTTP-status mapping.
- `bcrypt.hash` / `bcrypt.compare` and `jwtService.sign` are external
  black boxes: hashing is passed in as a function argument, a signed token is
  modelled by its payload (signature and expiry are outside the model).
- JS truthiness on optional strings (`undefined`, `null`, `""` are falsy) is
  `optFalsy`; JS strict equality between a nullable DB column and a
  possibly-undefined input (`null === undefined` is `false`) is `jsEqOpt`.
- MySQL `utf8mb4_unicode_ci` collation makes Prisma `contains` a
  case-insensitive substring match; `containsCI` models this with ASCII
  `toLower`.
- `createdAt` / `updatedAt` timestamps are `Nat`; mutating operations take the
  current time `now` as an argument.
-/

namespace TaskMS

/-- Prisma enum `UserRole`. -/
inductive UserRole where
  | Admin
  | User
deriving DecidableEq, Repr

/-- Prisma model `User` (table `users`). `none` on an optional column is SQL
`NULL`. -/
structure User where
  id : Nat
  email : Option String
  phoneNumber : Option String
  username : String
  password : String
  firstName : Option String
  lastName : Option String
  profilePicture : Option String
  role : UserRole
  createdAt : Nat
  updatedAt : Nat
deriving DecidableEq, Repr

/-- Prisma model `Task` (table `tasks`); `userId` is the owning account
reference with `onDelete: Cascade`. -/
structure Task where
  id : Nat
  name : String
  description : Option String
  attachment : Option String
  userId : Nat
  createdAt : Nat
  updatedAt : Nat
deriving DecidableEq, Repr

/-- The relational store: both tables plus their AUTO_INCREMENT counters. -/
structure DB where
  users : List User
  tasks : List Task
  userSeq : Nat
  taskSeq : Nat
deriving DecidableEq, Repr

/-- NestJS exceptions thrown by the services. -/
inductive Err where
  | badRequest (msg : String)
  | unauthorized (msg : String)
  | forbidden (msg : String)
  | notFound (msg : String)
  | internal (msg : String)
deriving DecidableEq, Repr

/-- The NestJS exception-to-HTTP-status mapping. -/
def Err.statusCode : Err → Nat
  | .badRequest _ => 400
  | .unauthorized _ => 401
  | .forbidden _ => 403
  | .notFound _ => 404
  | .internal _ => 500

/-- JS truthiness test on an optional string: `undefined` / `null` / `""` are
falsy. -/
def optFalsy : Option String → Bool
  | none => true
  | some s => s.isEmpty

/-- JS `x || null` on an optional string. -/
def orNull (o : Option String) : Option String :=
  if optFalsy o then none else o

/-- JS strict equality between a nullable DB column and a possibly-undefined
input: `null === undefined` is `false`, so it holds only when both sides are
present and equal. -/
def jsEqOpt : Option String → Option String → Bool
  | some a, some b => a == b
  | _, _ => false

/-- Is `nee` a contiguous infix of `hay`? (Checks every suffix.) -/
def infixOf (nee : List Char) : List Char → Bool
  | [] => nee.isEmpty
  | c :: t => nee.isPrefixOf (c :: t) || infixOf nee t

/-- Case-insensitive substring test: models Prisma `contains` under the MySQL
`utf8mb4_unicode_ci` collation (restricted to ASCII case folding). -/
def containsCI (hay nee : String) : Bool :=
  infixOf (nee.data.map Char.toLower) (hay.data.map Char.toLower)

/-- Values appearing in a JSON response body. -/
inductive JVal where
  | str (v : String)
  | num (v : Nat)
  | roleVal (v : UserRole)
  | null
deriving DecidableEq, Repr

/-- Serialize a nullable string column. -/
def optStr : Option String → JVal
  | none => .null
  | some s => .str s

/-- The JSON object produced by destructuring a `User` row while dropping the
`password` key (the `const ... = user` destructuring used everywhere and the
explicit `select` of `UsersService.findAll`, which list the same ten fields). -/
def userWithoutPassword (u : User) : List (String × JVal) :=
  [ ("id", .num u.id)
  , ("email", optStr u.email)
  , ("phoneNumber", optStr u.phoneNumber)
  , ("username", .str u.username)
  , ("firstName", optStr u.firstName)
  , ("lastName", optStr u.lastName)
  , ("profilePicture", optStr u.profilePicture)
  , ("role", .roleVal u.role)
  , ("createdAt", .num u.createdAt)
  , ("updatedAt", .num u.updatedAt) ]

/-- JWT claims set by `AuthService.generateToken`; a signed token is modelled
by its payload. -/
structure JwtPayload where
  sub : Nat
  username : String
  role : UserRole
deriving DecidableEq, Repr

/-- `AuthService.generateToken`. -/
def generateToken (u : User) : JwtPayload :=
  { sub := u.id, username := u.username, role := u.role }

/-- Body returned by register / login: user JSON (password excluded) plus
token. -/
structure AuthResponse where
  user : List (String × JVal)
  token : JwtPayload
deriving DecidableEq, Repr

/-- `AuthService.buildUserResponse`. -/
def buildUserResponse (u : User) : AuthResponse :=
  { user := userWithoutPassword u, token := generateToken u }

/-- `prisma.user.findUnique(\x7b where: \x7b id \x7d \x7d)`. -/
def findUser (db : DB) (id : Nat) : Option User :=
  db.users.find? (fun u => decide (u.id = id))

/-- `prisma.task.findUnique(\x7b where: \x7b id \x7d \x7d)`. -/
def findTask (db : DB) (taskId : Nat) : Option Task :=
  db.tasks.find? (fun t => decide (t.id = taskId))

/-! ## TasksService -/

/-- A multipart upload already saved by multer; the DB stores `file.path`. -/
structure UploadedFile where
  path : String
deriving DecidableEq, Repr

/-- `TasksService.getTaskById`: not-found when the row does not exist,
forbidden when it exists but belongs to someone else. -/
def getTaskById (db : DB) (taskId userId : Nat) : Except Err Task :=
  match findTask db taskId with
  | none => .error (.notFound "Task not found")
  | some task =>
    if task.userId ≠ userId then
      .error (.forbidden "You can only access your own tasks")
    else
      .ok task

/-- `CreateTaskDto`. -/
structure CreateTaskDto where
  name : String
  description : Option String := none
deriving Repr

/-- `TasksService.createTask`. -/
def createTask (db : DB) (userId : Nat) (dto : CreateTaskDto) (now : Nat) :
    DB × Task :=
  let t : Task :=
    { id := db.taskSeq, name := dto.name, description := dto.description
    , attachment := none, userId := userId, createdAt := now, updatedAt := now }
  ({ db with tasks := db.tasks ++ [t], taskSeq := db.taskSeq + 1 }, t)

/-- `UpdateTaskDto` (both fields optional). -/
structure UpdateTaskDto where
  name : Option String := none
  description : Option String := none
deriving Repr

/-- Prisma `task.update` data for `UpdateTaskDto`: absent fields are left
unchanged, `updatedAt` is bumped. -/
def applyTaskUpdate (dto : UpdateTaskDto) (now : Nat) (t : Task) : Task :=
  { t with
    name := match dto.name with | some n => n | none => t.name
    description := match dto.description with | some d => some d | none => t.description
    updatedAt := now }

/-- `TasksService.updateTask`: ownership check via `getTaskById`, then update
the row. -/
def updateTask (db : DB) (taskId userId : Nat) (dto : UpdateTaskDto) (now : Nat) :
    Except Err (DB × Task) :=
  match getTaskById db taskId userId with
  | .error e => .error e
  | .ok t =>
    let t2 := applyTaskUpdate dto now t
    .ok ({ db with tasks := db.tasks.map (fun s => if s.id = taskId then t2 else s) }, t2)

/-- `TasksService.deleteTask`: ownership check via `getTaskById`, best-effort
file unlink (outside the model), then delete the row. -/
def deleteTask (db : DB) (taskId userId : Nat) : Except Err DB :=
  match getTaskById db taskId userId with
  | .error _e => .error _e
  | .ok _ => .ok { db with tasks := db.tasks.filter (fun t => decide (t.id ≠ taskId)) }

/-- `TasksService.addAttachment`: missing file is a bad request; otherwise
ownership check, then store the new file path (old file unlinked best-effort,
outside the model). -/
def addAttachment (db : DB) (taskId userId : Nat) (file : Option UploadedFile)
    (now : Nat) : Except Err (DB × Task) :=
  match file with
  | none => .error (.badRequest "Attachment file is required")
  | some f =>
    match getTaskById db taskId userId with
    | .error e => .error e
    | .ok t =>
      let t2 := { t with attachment := some f.path, updatedAt := now }
      .ok ({ db with tasks := db.tasks.map (fun s => if s.id = taskId then t2 else s) }, t2)

/-- `TasksService.getAttachment`. -/
def getAttachment (db : DB) (taskId userId : Nat) : Except Err String :=
  match getTaskById db taskId userId with
  | .error e => .error e
  | .ok t =>
    match t.attachment with
    | none => .error (.notFound "Attachment not found")
    | some p => .ok p

/-- `TasksService.removeAttachment`. -/
def removeAttachment (db : DB) (taskId userId : Nat) (now : Nat) :
    Except Err (DB × Task) :=
  match getTaskById db taskId userId with
  | .error e => .error e
  | .ok t =>
    match t.attachment with
    | none => .error (.notFound "Attachment not found")
    | some _ =>
      let t2 := { t with attachment := none, updatedAt := now }
      .ok ({ db with tasks := db.tasks.map (fun s => if s.id = taskId then t2 else s) }, t2)

/-- `SortField` enum of `TaskQueryDto`. -/
inductive SortField where
  | id
  | name
  | createdAt
  | updatedAt
deriving DecidableEq, Repr

/-- `SortOrder` enum of `TaskQueryDto`. -/
inductive SortOrder where
  | asc
  | desc
deriving DecidableEq, Repr

/-- Ascending comparison on the selected column (string column ordering
abstracts the MySQL collation as code-point order). -/
def fieldLe (f : SortField) (a b : Task) : Bool :=
  match f with
  | .id => decide (a.id ≤ b.id)
  | .name => decide (a.name ≤ b.name)
  | .createdAt => decide (a.createdAt ≤ b.createdAt)
  | .updatedAt => decide (a.updatedAt ≤ b.updatedAt)

/-- Prisma `orderBy` comparison for the requested field and direction. -/
def taskLe (f : SortField) (o : SortOrder) (a b : Task) : Bool :=
  match o with
  | .asc => fieldLe f a b
  | .desc => fieldLe f b a

/-- `TaskQueryDto` with its defaults. -/
structure TaskQuery where
  page : Nat := 1
  limit : Nat := 10
  sortBy : SortField := .createdAt
  sortOrder : SortOrder := .desc
  search : Option String := none
deriving Repr

/-- The `where` clause of `TasksService.getTasks`: owner scope plus, when the
search term is truthy, a case-insensitive substring match on name OR
description (a NULL description never matches). -/
def taskMatches (userId : Nat) (search : Option String) (t : Task) : Bool :=
  decide (t.userId = userId) &&
    match search with
    | none => true
    | some s => s.isEmpty || (containsCI t.name s || (match t.description with
        | some d => containsCI d s
        | none => false))

/-- Pagination metadata of `TasksService.getTasks`. -/
structure PageMeta where
  total : Nat
  page : Nat
  limit : Nat
  totalPages : Nat
  hasNext : Bool
  hasPrevious : Bool
deriving DecidableEq, Repr

/-- Result shape of `TasksService.getTasks`. -/
structure TaskPage where
  data : List Task
  meta : PageMeta
deriving Repr

/-- `TasksService.getTasks`: filter by owner and search, count, sort, then
`skip = (page - 1) * limit` and `take = limit`; `totalPages` is
`Math.ceil(total / limit)` (natural-number ceiling division). -/
def getTasks (db : DB) (userId : Nat) (q : TaskQuery) : TaskPage :=
  let skip := (q.page - 1) * q.limit
  let matching := db.tasks.filter (taskMatches userId q.search)
  let total := matching.length
  let sorted := matching.mergeSort (taskLe q.sortBy q.sortOrder)
  let totalPages := (total + q.limit - 1) / q.limit
  { data := (sorted.drop skip).take q.limit
  , meta :=
    { total := total, page := q.page, limit := q.limit, totalPages := totalPages
    , hasNext := decide (q.page < totalPages)
    , hasPrevious := decide (q.page > 1) } }

/-! ## AuthService -/

/-- `RegisterDto` (email/phone/names optional). -/
structure RegisterDto where
  email : Option String := none
  phoneNumber : Option String := none
  username : String
  password : String
  firstName : Option String := none
  lastName : Option String := none
deriving Repr

/-- `LoginDto`. -/
structure LoginDto where
  username : String
  password : String
deriving Repr

/-- The `findFirst` OR-clause of registration (and of `UsersService.create`):
`email: email || null`, `phoneNumber: phoneNumber || null`, `username`.
Note that a falsy input turns the clause into an `IS NULL` match. -/
def registerConflictQuery (email phoneNumber : Option String) (username : String)
    (u : User) : Bool :=
  decide (u.email = orNull email ∨ u.phoneNumber = orNull phoneNumber ∨
          u.username = username)

/-- Which unique column of `users` a `prisma.user.create` would violate
(`P2002`): the MySQL unique indexes on `username`, `email`, `phone_number`
(NULLs never collide). The model fixes one checking order; the source does not
depend on which index the database reports first. -/
inductive UniqueField where
  | username
  | email
  | phoneNumber
deriving DecidableEq, Repr

/-- Unique-constraint check performed by the database at `user.create`. -/
def uniqueViolation (db : DB) (email phoneNumber : Option String)
    (username : String) : Option UniqueField :=
  if db.users.any (fun u => decide (u.username = username)) then
    some .username
  else if db.users.any (fun u => email.isSome && decide (u.email = email)) then
    some .email
  else if db.users.any (fun u => phoneNumber.isSome && decide (u.phoneNumber = phoneNumber)) then
    some .phoneNumber
  else
    none

/-- The row stored by registration: data fields from the DTO, hashed password,
role left to its schema default `User`. -/
def registerRow (hash : String → String) (db : DB) (dto : RegisterDto)
    (now : Nat) : User :=
  { id := db.userSeq, email := dto.email, phoneNumber := dto.phoneNumber
  , username := dto.username, password := hash dto.password
  , firstName := dto.firstName, lastName := dto.lastName
  , profilePicture := none, role := .User, createdAt := now, updatedAt := now }

/-- The duplicate pre-check shared verbatim by `AuthService.register` and
`UsersService.create`: the combined `findFirst` lookup followed by the three
JS strict-equality comparisons picking the message. -/
def registerDupMsg (db : DB) (email phoneNumber : Option String)
    (username : String) : Option String :=
  match db.users.find? (registerConflictQuery email phoneNumber username) with
  | some ex =>
    if jsEqOpt ex.email email then some "Email already in use"
    else if jsEqOpt ex.phoneNumber phoneNumber then some "Phone number already in use"
    else if ex.username = username then some "Username already in use"
    else none
  | none => none

/-- `AuthService.register`: required-field checks, email-or-phone check, the
combined duplicate lookup with its three JS strict-equality comparisons, then
`user.create` whose `P2002` unique violations are translated back to the same
"already in use" messages by the catch block. -/
def register (hash : String → String) (db : DB) (dto : RegisterDto) (now : Nat) :
    Except Err (DB × AuthResponse) :=
  if dto.username.isEmpty then .error (.badRequest "Username is required")
  else if dto.password.isEmpty then .error (.badRequest "Password is required")
  else if optFalsy dto.email && optFalsy dto.phoneNumber then
    .error (.badRequest "Either email or phone number must be provided")
  else
    match registerDupMsg db dto.email dto.phoneNumber dto.username with
    | some msg => .error (.badRequest msg)
    | none =>
      match uniqueViolation db dto.email dto.phoneNumber dto.username with
      | some .email => .error (.badRequest "Email already in use")
      | some .username => .error (.badRequest "Username already in use")
      | some .phoneNumber => .error (.badRequest "Phone number already in use")
      | none =>
        .ok ({ db with users := db.users ++ [registerRow hash db dto now], userSeq := db.userSeq + 1 },
             buildUserResponse (registerRow hash db dto now))

/-- `AuthService.login`: `verify` is `bcrypt.compare`; a missing user and a
failed hash comparison raise the same generic unauthorized error. -/
def login (verify : String → String → Bool) (db : DB) (dto : LoginDto) :
    Except Err AuthResponse :=
  if dto.username.isEmpty then .error (.badRequest "Username is required")
  else if dto.password.isEmpty then .error (.badRequest "Password is required")
  else
    match db.users.find? (fun u => decide (u.username = dto.username)) with
    | none => .error (.unauthorized "Invalid credentials")
    | some u =>
      if verify dto.password u.password then .ok (buildUserResponse u)
      else .error (.unauthorized "Invalid credentials")

/-- `JwtStrategy.validate`: runs after signature and expiry already checked;
loads the user named by `payload.sub` and rejects tokens of absent accounts. -/
def validate (db : DB) (payload : JwtPayload) :
    Except Err (List (String × JVal)) :=
  match findUser db payload.sub with
  | none => .error (.unauthorized "User not found")
  | some u => .ok (userWithoutPassword u)

/-! ## ProfileService -/

/-- `UpdateProfileDto`: the only accepted fields are email, phoneNumber,
firstName, lastName. -/
structure UpdateProfileDto where
  email : Option String := none
  phoneNumber : Option String := none
  firstName : Option String := none
  lastName : Option String := none
deriving Repr

/-- `ProfileService.getProfile`. -/
def getProfile (db : DB) (userId : Nat) : Except Err (List (String × JVal)) :=
  match findUser db userId with
  | none => .error (.notFound "User not found")
  | some u => .ok (userWithoutPassword u)

/-- `ProfileService.checkForDuplicates`: each truthy field is checked against
other rows (`NOT: \x7b id: userId \x7d` excludes the caller's own record). -/
def checkForDuplicates (db : DB) (userId : Nat) (dto : UpdateProfileDto) :
    Option String :=
  if !optFalsy dto.email &&
      db.users.any (fun u => decide (u.email = dto.email) && decide (u.id ≠ userId)) then
    some "Email already in use"
  else if !optFalsy dto.phoneNumber &&
      db.users.any (fun u => decide (u.phoneNumber = dto.phoneNumber) && decide (u.id ≠ userId)) then
    some "Phone number already in use"
  else
    none

/-- Prisma `user.update` data for `UpdateProfileDto`: absent fields are left
unchanged; `updatedAt` is bumped. -/
def applyProfileUpdate (dto : UpdateProfileDto) (now : Nat) (u : User) : User :=
  { u with
    email := match dto.email with | some e => some e | none => u.email
    phoneNumber := match dto.phoneNumber with | some p => some p | none => u.phoneNumber
    firstName := match dto.firstName with | some f => some f | none => u.firstName
    lastName := match dto.lastName with | some l => some l | none => u.lastName
    updatedAt := now }

/-- `ProfileService.updateProfile`: existence check, duplicate check (run only
when email or phoneNumber is truthy), then update of the caller's own row. -/
def updateProfile (db : DB) (userId : Nat) (dto : UpdateProfileDto) (now : Nat) :
    Except Err (DB × List (String × JVal)) :=
  match findUser db userId with
  | none => .error (.notFound "User not found")
  | some u =>
    match (if !optFalsy dto.email || !optFalsy dto.phoneNumber then
             checkForDuplicates db userId dto
           else none) with
    | some msg => .error (.badRequest msg)
    | none =>
      .ok ({ db with users := db.users.map (fun v =>
               if v.id = userId then applyProfileUpdate dto now u else v) },
           userWithoutPassword (applyProfileUpdate dto now u))

/-- `ProfileService.updateProfilePicture`: existence check, best-effort unlink
of the previous file (outside the model), then store the new path. -/
def updateProfilePicture (db : DB) (userId : Nat) (file : UploadedFile)
    (now : Nat) : Except Err (DB × List (String × JVal)) :=
  match findUser db userId with
  | none => .error (.notFound "User not found")
  | some u =>
    let u2 := { u with profilePicture := some file.path, updatedAt := now }
    .ok ({ db with users := db.users.map (fun v => if v.id = userId then u2 else v) },
         userWithoutPassword u2)

/-- `ProfileService.getProfilePicture`: not-found when the user row is absent,
then the owner check (throws `UnauthorizedException`, a 401, in the source),
then not-found when no picture is stored. -/
def getProfilePicture (db : DB) (userId requestingUserId : Nat) :
    Except Err String :=
  match findUser db userId with
  | none => .error (.notFound "User not found")
  | some u =>
    if userId ≠ requestingUserId then
      .error (.unauthorized "You can only access your own profile picture")
    else
      match u.profilePicture with
      | none => .error (.notFound "Profile picture not found")
      | some p => .ok p

/-! ## UsersService (admin-only) -/

/-- `CreateUserDto` extends `RegisterDto` with an optional role (default
`User`). -/
structure CreateUserDto where
  email : Option String := none
  phoneNumber : Option String := none
  username : String
  password : String
  firstName : Option String := none
  lastName : Option String := none
  role : UserRole := .User
deriving Repr

/-- The row stored by `UsersService.create`: DTO fields spread with the hashed
password. -/
def createUserRow (hash : String → String) (db : DB) (dto : CreateUserDto)
    (now : Nat) : User :=
  { id := db.userSeq, email := dto.email, phoneNumber := dto.phoneNumber
  , username := dto.username, password := hash dto.password
  , firstName := dto.firstName, lastName := dto.lastName
  , profilePicture := none, role := dto.role, createdAt := now, updatedAt := now }

/-- `UsersService.create`: same uniqueness pre-check as registration, but with
no catch block, so a unique violation at `user.create` surfaces as an
unhandled internal error. -/
def usersCreate (hash : String → String) (db : DB) (dto : CreateUserDto)
    (now : Nat) : Except Err (DB × List (String × JVal)) :=
  if optFalsy dto.email && optFalsy dto.phoneNumber then
    .error (.badRequest "Either email or phone number must be provided")
  else
    match registerDupMsg db dto.email dto.phoneNumber dto.username with
    | some msg => .error (.badRequest msg)
    | none =>
      match uniqueViolation db dto.email dto.phoneNumber dto.username with
      | some _ => .error (.internal "P2002")
      | none =>
        .ok ({ db with users := db.users ++ [createUserRow hash db dto now], userSeq := db.userSeq + 1 },
             userWithoutPassword (createUserRow hash db dto now))

/-- `UserQueryDto` with its defaults. -/
structure UserQuery where
  page : Nat := 1
  limit : Nat := 10
  username : Option String := none
  email : Option String := none
  role : Option UserRole := none
deriving Repr

/-- The `where` clause of `UsersService.findAll`: each truthy filter narrows
the list (`contains` is case-insensitive under the MySQL collation; a NULL
email never matches a `contains` filter). -/
def userFilterMatches (q : UserQuery) (u : User) : Bool :=
  (match q.username with
    | some s => s.isEmpty || containsCI u.username s
    | none => true) &&
  (match q.email with
    | some s => s.isEmpty || (match u.email with
        | some e => containsCI e s
        | none => false)
    | none => true) &&
  (match q.role with
    | some r => decide (u.role = r)
    | none => true)

/-- Metadata of `UsersService.findAll` (no hasNext/hasPrevious here). -/
structure UserListMeta where
  total : Nat
  page : Nat
  limit : Nat
  totalPages : Nat
deriving DecidableEq, Repr

/-- Result shape of `UsersService.findAll`; rows are already
password-stripped by the `select`. -/
structure UserListPage where
  data : List (List (String × JVal))
  meta : UserListMeta
deriving Repr

/-- Newest-first comparison used by `UsersService.findAll`
(`orderBy: createdAt desc`). -/
def userCreatedDesc (a b : User) : Bool :=
  decide (b.createdAt ≤ a.createdAt)

/-- `UsersService.findAll`: filter, order newest-first, paginate, and select
every column except `password`. -/
def usersFindAll (db : DB) (q : UserQuery) : UserListPage :=
  let skip := (q.page - 1) * q.limit
  let filtered := db.users.filter (userFilterMatches q)
  let total := filtered.length
  let sorted := filtered.mergeSort userCreatedDesc
  { data := ((sorted.drop skip).take q.limit).map userWithoutPassword
  , meta := { total := total, page := q.page, limit := q.limit
            , totalPages := (total + q.limit - 1) / q.limit } }

/-- `UsersService.findOne`. -/
def usersFindOne (db : DB) (id : Nat) : Except Err (List (String × JVal)) :=
  match findUser db id with
  | none => .error (.notFound s!"User with ID {id} not found")
  | some u => .ok (userWithoutPassword u)

/-- `UpdateUserDto` as the service reads it (the service also consults a
`username` property, which the declared DTO does not expose, so it is always
absent in validated requests; it is kept here because the service code reads
it). -/
structure UpdateUserDto where
  email : Option String := none
  phoneNumber : Option String := none
  username : Option String := none
  password : Option String := none
  firstName : Option String := none
  lastName : Option String := none
  role : Option UserRole := none
deriving Repr

/-- Truthy-guarded test used when assembling the duplicate-check
OR-conditions of `UsersService.update`. -/
def optTruthyAnd (o : Option String) (f : String → Bool) : Bool :=
  match o with
  | some s => !s.isEmpty && f s
  | none => false

/-- The duplicate check of `UsersService.update`: `findFirst` over the truthy
OR-conditions excluding the updated row, then per-field JS strict-equality
checks to pick the message. -/
def usersUpdateDupCheck (db : DB) (id : Nat) (dto : UpdateUserDto) :
    Option String :=
  if !optFalsy dto.email || !optFalsy dto.phoneNumber || !optFalsy dto.username then
    match db.users.find? (fun u =>
        decide (u.id ≠ id) &&
        (optTruthyAnd dto.email (fun e => decide (u.email = some e)) ||
         optTruthyAnd dto.phoneNumber (fun p => decide (u.phoneNumber = some p)) ||
         optTruthyAnd dto.username (fun s => decide (u.username = s)))) with
    | none => none
    | some dup =>
      if !optFalsy dto.email && jsEqOpt dup.email dto.email then
        some "Email already in use"
      else if !optFalsy dto.phoneNumber && jsEqOpt dup.phoneNumber dto.phoneNumber then
        some "Phone number already in use"
      else if !optFalsy dto.username &&
          (match dto.username with | some s => decide (dup.username = s) | none => false) then
        some "Username already in use"
      else none
  else none

/-- Prisma `user.update` data for `UpdateUserDto`: the DTO spread, with the
password re-hashed when truthy (a falsy-but-present password is written as
given); `updatedAt` is bumped. -/
def applyUserUpdate (hash : String → String) (dto : UpdateUserDto) (now : Nat)
    (u : User) : User :=
  { u with
    email := match dto.email with | some e => some e | none => u.email
    phoneNumber := match dto.phoneNumber with | some p => some p | none => u.phoneNumber
    username := match dto.username with | some s => s | none => u.username
    password := match dto.password with
      | some p => if p.isEmpty then p else hash p
      | none => u.password
    firstName := match dto.firstName with | some f => some f | none => u.firstName
    lastName := match dto.lastName with | some l => some l | none => u.lastName
    role := match dto.role with | some r => r | none => u.role
    updatedAt := now }

/-- `UsersService.update`: existence check, duplicate check, then update. -/
def usersUpdate (hash : String → String) (db : DB) (id : Nat)
    (dto : UpdateUserDto) (now : Nat) :
    Except Err (DB × List (String × JVal)) :=
  match findUser db id with
  | none => .error (.notFound s!"User with ID {id} not found")
  | some u =>
    match usersUpdateDupCheck db id dto with
    | some msg => .error (.badRequest msg)
    | none =>
      let u2 := applyUserUpdate hash dto now u
      .ok ({ db with users := db.users.map (fun v => if v.id = id then u2 else v) },
           userWithoutPassword u2)

/-- The role-string validation of `UsersService.updateRole`
(`Object.values(UserRole).includes(role)`). -/
def parseRole : String → Option UserRole
  | "Admin" => some .Admin
  | "User" => some .User
  | _ => none

/-- `UsersService.updateRole`: existence check, role validation, then update
of the role column. -/
def usersUpdateRole (db : DB) (id : Nat) (role : String) (now : Nat) :
    Except Err (DB × List (String × JVal)) :=
  match findUser db id with
  | none => .error (.notFound s!"User with ID {id} not found")
  | some u =>
    match parseRole role with
    | none => .error (.badRequest "Invalid role. Must be Admin or User")
    | some r =>
      let u2 := { u with role := r, updatedAt := now }
      .ok ({ db with users := db.users.map (fun v => if v.id = id then u2 else v) },
           userWithoutPassword u2)

/-- `UsersService.remove`: existence check, then `user.delete`; the
`onDelete: Cascade` of the Prisma schema deletes every task whose `userId`
references the removed account. -/
def usersRemove (db : DB) (id : Nat) : Except Err DB :=
  match findUser db id with
  | none => .error (.notFound s!"User with ID {id} not found")
  | some _ =>
    .ok { db with
          users := db.users.filter (fun u => decide (u.id ≠ id))
        , tasks := db.tasks.filter (fun t => decide (t.userId ≠ id)) }

/-! ## Derived predicates -/

/-- A serialized object carries no `password` key. -/
def noPasswordKey (fields : List (String × JVal)) : Prop :=
  ∀ kv ∈ fields, kv.1 ≠ "password"

/-- The referential-integrity invariant: every stored task references an
existing owning account. -/
def ownersExist (db : DB) : Prop :=
  ∀ t ∈ db.tasks, ∃ u ∈ db.users, u.id = t.userId

/-- Primary-key uniqueness of the `tasks` table. -/
def tasksIdUnique (db : DB) : Prop :=
  db.tasks.Pairwise (fun a b => a.id ≠ b.id)

/-! ## Sample data (used by witnesses) -/

/-- Sample account 1. -/
def alice : User :=
  { id := 1, email := some "alice@example.com", phoneNumber := none
  , username := "alice", password := "HASH-a", firstName := some "Alice"
  , lastName := none, profilePicture := some "uploads/alice.png"
  , role := .User, createdAt := 10, updatedAt := 10 }

/-- Sample account 2. -/
def bob : User :=
  { id := 2, email := none, phoneNumber := some "+12345678901"
  , username := "bob", password := "HASH-b", firstName := none
  , lastName := none, profilePicture := none
  , role := .User, createdAt := 20, updatedAt := 20 }

/-- Sample task owned by account 1. -/
def docTask : Task :=
  { id := 1, name := "Write documentation"
  , description := some "Write comprehensive docs for the project"
  , attachment := some "uploads/doc.txt", userId := 1
  , createdAt := 11, updatedAt := 11 }

/-- Sample task owned by account 2 whose text also matches "document". -/
def bobTask : Task :=
  { id := 2, name := "Other document chores", description := none
  , attachment := none, userId := 2, createdAt := 21, updatedAt := 21 }

/-- Sample database. -/
def dbEx : DB :=
  { users := [alice, bob], tasks := [docTask, bobTask], userSeq := 3, taskSeq := 3 }

/-- Sample database with 25 tasks of account 1. -/
def db25 : DB :=
  { users := [alice]
  , tasks := (List.range 25).map (fun i =>
      { id := i + 1, name := "t", description := none, attachment := none
      , userId := 1, createdAt := i, updatedAt := i })
  , userSeq := 2, taskSeq := 26 }

/-- Page 2 with limit 10 (defaults otherwise). -/
def q2 : TaskQuery := { page := 2, limit := 10 }

/-- Query searching for "document". -/
def qSearch : TaskQuery := { search := some "document" }

/-- Query searching for a non-matching term. -/
def qXyz : TaskQuery := { search := some "xyz" }

/-- Profile update re-submitting alice's own current email. -/
def dtoSelf : UpdateProfileDto :=
  { email := some "alice@example.com", phoneNumber := none
  , firstName := some "A", lastName := none }

/-- The sample database after removing account 1 (alice and her task are
gone). -/
def dbExAfter : DB :=
  { users := [bob], tasks := [bobTask], userSeq := 3, taskSeq := 3 }

/-! ## Inversion lemmas for the operations -/

/-- The destructured user object never carries a `password` key. -/
theorem userWithoutPassword_noPassword (u : User) :
    noPasswordKey (userWithoutPassword u) := by
  intro kv h
  simp only [userWithoutPassword, List.mem_cons, List.not_mem_nil, or_false] at h
  rcases h with rfl | rfl | rfl | rfl | rfl | rfl | rfl | rfl | rfl | rfl <;> simp

/-- Inversion of a successful `getProfile`. -/
theorem getProfile_ok {db : DB} {uid : Nat} {fields : List (String × JVal)}
    (h : getProfile db uid = .ok fields) :
    ∃ u, findUser db uid = some u ∧ fields = userWithoutPassword u := by
  unfold getProfile at h
  cases hf : findUser db uid with
  | none => rw [hf] at h; cases h
  | some u =>
    rw [hf] at h
    injection h with h2
    exact ⟨u, rfl, h2.symm⟩

/-- Inversion of a successful `usersFindOne`. -/
theorem usersFindOne_ok {db : DB} {id : Nat} {fields : List (String × JVal)}
    (h : usersFindOne db id = .ok fields) :
    ∃ u, findUser db id = some u ∧ fields = userWithoutPassword u := by
  unfold usersFindOne at h
  cases hf : findUser db id with
  | none => rw [hf] at h; cases h
  | some u =>
    rw [hf] at h
    injection h with h2
    exact ⟨u, rfl, h2.symm⟩

/-- Inversion of a successful `login`. -/
theorem login_ok {verify : String → String → Bool} {db : DB} {dto : LoginDto}
    {resp : AuthResponse} (h : login verify db dto = .ok resp) :
    ∃ u, db.users.find? (fun v => decide (v.username = dto.username)) = some u ∧
      verify dto.password u.password = true ∧ resp = buildUserResponse u := by
  unfold login at h
  by_cases h1 : dto.username.isEmpty = true
  · rw [if_pos h1] at h; cases h
  rw [if_neg h1] at h
  by_cases h2 : dto.password.isEmpty = true
  · rw [if_pos h2] at h; cases h
  rw [if_neg h2] at h
  cases hf : db.users.find? (fun v => decide (v.username = dto.username)) with
  | none => rw [hf] at h; cases h
  | some u =>
    simp only [hf] at h
    by_cases hv : verify dto.password u.password = true
    · rw [if_pos hv] at h
      injection h with h3
      exact ⟨u, rfl, hv, h3.symm⟩
    · rw [if_neg hv] at h; cases h

/-- Inversion of a successful `register`. -/
theorem register_ok {hash : String → String} {db : DB} {dto : RegisterDto}
    {now : Nat} {db2 : DB} {resp : AuthResponse}
    (h : register hash db dto now = .ok (db2, resp)) :
    dto.username.isEmpty = false ∧ dto.password.isEmpty = false ∧
    (optFalsy dto.email && optFalsy dto.phoneNumber) = false ∧
    registerDupMsg db dto.email dto.phoneNumber dto.username = none ∧
    uniqueViolation db dto.email dto.phoneNumber dto.username = none ∧
    db2 = { db with users := db.users ++ [registerRow hash db dto now], userSeq := db.userSeq + 1 } ∧
    resp = buildUserResponse (registerRow hash db dto now) := by
  unfold register at h
  by_cases h1 : dto.username.isEmpty = true
  · rw [if_pos h1] at h; cases h
  rw [if_neg h1] at h
  by_cases h2 : dto.password.isEmpty = true
  · rw [if_pos h2] at h; cases h
  rw [if_neg h2] at h
  by_cases h3 : (optFalsy dto.email && optFalsy dto.phoneNumber) = true
  · rw [if_pos h3] at h; cases h
  rw [if_neg h3] at h
  cases hd : registerDupMsg db dto.email dto.phoneNumber dto.username with
  | some msg => rw [hd] at h; cases h
  | none =>
    rw [hd] at h
    cases hv : uniqueViolation db dto.email dto.phoneNumber dto.username with
    | some f => rw [hv] at h; cases f <;> cases h
    | none =>
      rw [hv] at h
      injection h with h4
      injection h4 with ha hb
      exact ⟨Bool.eq_false_iff.mpr h1, Bool.eq_false_iff.mpr h2,
             Bool.eq_false_iff.mpr h3, rfl, rfl, ha.symm, hb.symm⟩

/-- Inversion of a successful `usersCreate`. -/
theorem usersCreate_ok {hash : String → String} {db : DB} {dto : CreateUserDto}
    {now : Nat} {db2 : DB} {fields : List (String × JVal)}
    (h : usersCreate hash db dto now = .ok (db2, fields)) :
    (optFalsy dto.email && optFalsy dto.phoneNumber) = false ∧
    registerDupMsg db dto.email dto.phoneNumber dto.username = none ∧
    uniqueViolation db dto.email dto.phoneNumber dto.username = none ∧
    db2 = { db with users := db.users ++ [createUserRow hash db dto now], userSeq := db.userSeq + 1 } ∧
    fields = userWithoutPassword (createUserRow hash db dto now) := by
  unfold usersCreate at h
  by_cases h3 : (optFalsy dto.email && optFalsy dto.phoneNumber) = true
  · rw [if_pos h3] at h; cases h
  rw [if_neg h3] at h
  cases hd : registerDupMsg db dto.email dto.phoneNumber dto.username with
  | some msg => rw [hd] at h; cases h
  | none =>
    rw [hd] at h
    cases hv : uniqueViolation db dto.email dto.phoneNumber dto.username with
    | some f => rw [hv] at h; cases h
    | none =>
      rw [hv] at h
      injection h with h4
      injection h4 with ha hb
      exact ⟨Bool.eq_false_iff.mpr h3, rfl, rfl, ha.symm, hb.symm⟩

/-- Inversion of a successful `updateProfile`. -/
theorem updateProfile_ok {db : DB} {uid : Nat} {dto : UpdateProfileDto}
    {now : Nat} {db2 : DB} {fields : List (String × JVal)}
    (h : updateProfile db uid dto now = .ok (db2, fields)) :
    ∃ u, findUser db uid = some u ∧
      db2 = { db with users := db.users.map (fun v =>
                if v.id = uid then applyProfileUpdate dto now u else v) } ∧
      fields = userWithoutPassword (applyProfileUpdate dto now u) := by
  unfold updateProfile at h
  cases hf : findUser db uid with
  | none => rw [hf] at h; cases h
  | some u =>
    rw [hf] at h
    cases hd : (if !optFalsy dto.email || !optFalsy dto.phoneNumber then
                  checkForDuplicates db uid dto
                else none) with
    | some msg => rw [hd] at h; cases h
    | none =>
      rw [hd] at h
      injection h with h4
      injection h4 with ha hb
      exact ⟨u, rfl, ha.symm, hb.symm⟩

/-- Inversion of a successful `updateProfilePicture`. -/
theorem updateProfilePicture_ok {db : DB} {uid : Nat} {file : UploadedFile}
    {now : Nat} {db2 : DB} {fields : List (String × JVal)}
    (h : updateProfilePicture db uid file now = .ok (db2, fields)) :
    ∃ u, findUser db uid = some u ∧
      db2 = { db with users := db.users.map (fun v =>
                if v.id = uid then { u with profilePicture := some file.path, updatedAt := now } else v) } ∧
      fields = userWithoutPassword { u with profilePicture := some file.path, updatedAt := now } := by
  unfold updateProfilePicture at h
  cases hf : findUser db uid with
  | none => rw [hf] at h; cases h
  | some u =>
    rw [hf] at h
    injection h with h4
    injection h4 with ha hb
    exact ⟨u, rfl, ha.symm, hb.symm⟩

/-- Inversion of a successful `usersUpdate`. -/
theorem usersUpdate_ok {hash : String → String} {db : DB} {id : Nat}
    {dto : UpdateUserDto} {now : Nat} {db2 : DB} {fields : List (String × JVal)}
    (h : usersUpdate hash db id dto now = .ok (db2, fields)) :
    ∃ u, findUser db id = some u ∧ usersUpdateDupCheck db id dto = none ∧
      db2 = { db with users := db.users.map (fun v =>
                if v.id = id then applyUserUpdate hash dto now u else v) } ∧
      fields = userWithoutPassword (applyUserUpdate hash dto now u) := by
  unfold usersUpdate at h
  cases hf : findUser db id with
  | none => rw [hf] at h; cases h
  | some u =>
    rw [hf] at h
    cases hd : usersUpdateDupCheck db id dto with
    | some msg => rw [hd] at h; cases h
    | none =>
      rw [hd] at h
      injection h with h4
      injection h4 with ha hb
      exact ⟨u, rfl, rfl, ha.symm, hb.symm⟩

/-- Inversion of a successful `usersUpdateRole`. -/
theorem usersUpdateRole_ok {db : DB} {id : Nat} {role : String} {now : Nat}
    {db2 : DB} {fields : List (String × JVal)}
    (h : usersUpdateRole db id role now = .ok (db2, fields)) :
    ∃ u r, findUser db id = some u ∧ parseRole role = some r ∧
      db2 = { db with users := db.users.map (fun v =>
                if v.id = id then { u with role := r, updatedAt := now } else v) } ∧
      fields = userWithoutPassword { u with role := r, updatedAt := now } := by
  unfold usersUpdateRole at h
  cases hf : findUser db id with
  | none => rw [hf] at h; cases h
  | some u =>
    rw [hf] at h
    cases hr : parseRole role with
    | none => rw [hr] at h; cases h
    | some r =>
      rw [hr] at h
      injection h with h4
      injection h4 with ha hb
      exact ⟨u, r, rfl, rfl, ha.symm, hb.symm⟩

/-- Inversion of a successful `usersRemove`. -/
theorem usersRemove_ok {db : DB} {id : Nat} {db2 : DB}
    (h : usersRemove db id = .ok db2) :
    db2.users = db.users.filter (fun u => decide (u.id ≠ id)) ∧
    db2.tasks = db.tasks.filter (fun t => decide (t.userId ≠ id)) ∧
    db2.userSeq = db.userSeq ∧ db2.taskSeq = db.taskSeq := by
  unfold usersRemove at h
  cases hf : findUser db id with
  | none => rw [hf] at h; cases h
  | some u =>
    rw [hf] at h
    injection h with h4
    subst h4
    exact ⟨rfl, rfl, rfl, rfl⟩

/-- Inversion of a successful `updateTask`. -/
theorem updateTask_ok {db : DB} {tid uid : Nat} {dto : UpdateTaskDto}
    {now : Nat} {db2 : DB} {t2 : Task}
    (h : updateTask db tid uid dto now = .ok (db2, t2)) :
    ∃ t, getTaskById db tid uid = .ok t ∧
      db2 = { db with tasks := db.tasks.map (fun s =>
                if s.id = tid then applyTaskUpdate dto now t else s) } ∧
      t2 = applyTaskUpdate dto now t := by
  unfold updateTask at h
  cases hg : getTaskById db tid uid with
  | error e => rw [hg] at h; cases h
  | ok t =>
    rw [hg] at h
    injection h with h4
    injection h4 with ha hb
    exact ⟨t, rfl, ha.symm, hb.symm⟩

/-- Inversion of a successful `deleteTask`. -/
theorem deleteTask_ok {db : DB} {tid uid : Nat} {db2 : DB}
    (h : deleteTask db tid uid = .ok db2) :
    (∃ t, getTaskById db tid uid = .ok t) ∧
      db2 = { db with tasks := db.tasks.filter (fun t => decide (t.id ≠ tid)) } := by
  unfold deleteTask at h
  cases hg : getTaskById db tid uid with
  | error e => rw [hg] at h; cases h
  | ok t =>
    rw [hg] at h
    injection h with h4
    exact ⟨⟨t, rfl⟩, h4.symm⟩

/-- Inversion of a successful `addAttachment`. -/
theorem addAttachment_ok {db : DB} {tid uid : Nat} {file : Option UploadedFile}
    {now : Nat} {db2 : DB} {t2 : Task}
    (h : addAttachment db tid uid file now = .ok (db2, t2)) :
    ∃ f t, file = some f ∧ getTaskById db tid uid = .ok t ∧
      db2 = { db with tasks := db.tasks.map (fun s =>
                if s.id = tid then { t with attachment := some f.path, updatedAt := now } else s) } ∧
      t2 = { t with attachment := some f.path, updatedAt := now } := by
  unfold addAttachment at h
  cases file with
  | none => cases h
  | some f =>
    cases hg : getTaskById db tid uid with
    | error e => rw [hg] at h; cases h
    | ok t =>
      rw [hg] at h
      injection h with h4
      injection h4 with ha hb
      exact ⟨f, t, rfl, rfl, ha.symm, hb.symm⟩

/-- Inversion of a successful `removeAttachment`. -/
theorem removeAttachment_ok {db : DB} {tid uid : Nat} {now : Nat}
    {db2 : DB} {t2 : Task}
    (h : removeAttachment db tid uid now = .ok (db2, t2)) :
    ∃ t, getTaskById db tid uid = .ok t ∧
      db2 = { db with tasks := db.tasks.map (fun s =>
                if s.id = tid then { t with attachment := none, updatedAt := now } else s) } ∧
      t2 = { t with attachment := none, updatedAt := now } := by
  unfold removeAttachment at h
  cases hg : getTaskById db tid uid with
  | error e => rw [hg] at h; cases h
  | ok t =>
    simp only [hg] at h
    cases ha : t.attachment with
    | none => simp only [ha] at h; cases h
    | some p =>
      simp only [ha] at h
      injection h with h4
      injection h4 with ha2 hb2
      exact ⟨t, rfl, ha2.symm, hb2.symm⟩

/-! ## C1: task lookup scoping -/

/-- C1: every task operation that looks up a task by id (`getTaskById` and its
callers `updateTask`, `deleteTask`, `addAttachment`, `getAttachment`,
`removeAttachment`) fails with not-found when no task has that id, fails with
forbidden when the task exists but belongs to another account, the two
failures are distinct values, and a task is only ever returned to its owner. -/
theorem C1_task_lookup_ownership (db : DB) (taskId userId : Nat) :
    (findTask db taskId = none →
      getTaskById db taskId userId = .error (.notFound "Task not found") ∧
      (∀ dto now, updateTask db taskId userId dto now = .error (.notFound "Task not found")) ∧
      deleteTask db taskId userId = .error (.notFound "Task not found") ∧
      (∀ f now, addAttachment db taskId userId (some f) now = .error (.notFound "Task not found")) ∧
      getAttachment db taskId userId = .error (.notFound "Task not found") ∧
      (∀ now, removeAttachment db taskId userId now = .error (.notFound "Task not found"))) ∧
    (∀ t, findTask db taskId = some t → t.userId ≠ userId →
      getTaskById db taskId userId = .error (.forbidden "You can only access your own tasks") ∧
      (∀ dto now, updateTask db taskId userId dto now = .error (.forbidden "You can only access your own tasks")) ∧
      deleteTask db taskId userId = .error (.forbidden "You can only access your own tasks") ∧
      (∀ f now, addAttachment db taskId userId (some f) now = .error (.forbidden "You can only access your own tasks")) ∧
      getAttachment db taskId userId = .error (.forbidden "You can only access your own tasks") ∧
      (∀ now, removeAttachment db taskId userId now = .error (.forbidden "You can only access your own tasks"))) ∧
    (∀ m1 m2, Err.notFound m1 ≠ Err.forbidden m2) ∧
    (∀ t, getTaskById db taskId userId = .ok t →
      findTask db taskId = some t ∧ t.userId = userId) := by
  refine ⟨?_, ?_, ?_, ?_⟩
  · intro h
    have hg : getTaskById db taskId userId = .error (.notFound "Task not found") := by
      simp [getTaskById, h]
    exact ⟨hg, fun dto now => by simp [updateTask, hg],
           by simp [deleteTask, hg],
           fun f now => by simp [addAttachment, hg],
           by simp [getAttachment, hg],
           fun now => by simp [removeAttachment, hg]⟩
  · intro t ht hne
    have hg : getTaskById db taskId userId =
        .error (.forbidden "You can only access your own tasks") := by
      simp [getTaskById, ht, hne]
    exact ⟨hg, fun dto now => by simp [updateTask, hg],
           by simp [deleteTask, hg],
           fun f now => by simp [addAttachment, hg],
           by simp [getAttachment, hg],
           fun now => by simp [removeAttachment, hg]⟩
  · intro m1 m2 h
    cases h
  · intro t h
    unfold getTaskById at h
    cases hf : findTask db taskId with
    | none => rw [hf] at h; cases h
    | some t0 =>
      simp only [hf] at h
      by_cases ho : t0.userId = userId
      · rw [if_neg (not_not_intro ho)] at h
        injection h with h2
        subst h2
        exact ⟨rfl, ho⟩
      · rw [if_pos ho] at h
        cases h

/-- Witness for C1 on the sample database: id 99 never existed (404) while
task 2 exists but belongs to bob, so alice gets 403. -/
theorem C1_witness :
    getTaskById dbEx 99 1 = .error (.notFound "Task not found") ∧
    getTaskById dbEx 2 1 = .error (.forbidden "You can only access your own tasks") :=
  ⟨((C1_task_lookup_ownership dbEx 99 1).1 (by decide)).1,
   (((C1_task_lookup_ownership dbEx 2 1).2.1) bobTask (by decide) (by decide)).1⟩

/-! ## C10: tokens of deleted accounts -/

/-- C10: a structurally valid token whose subject id matches no stored account
is rejected as unauthenticated by `JwtStrategy.validate`, and every accepted
request resolves to an account that exists in the store. -/
theorem C10_deleted_account_token_rejected (db : DB) (payload : JwtPayload) :
    (findUser db payload.sub = none →
      validate db payload = .error (.unauthorized "User not found") ∧
      (Err.unauthorized "User not found").statusCode = 401) ∧
    (∀ fields, validate db payload = .ok fields →
      ∃ u ∈ db.users, u.id = payload.sub) := by
  constructor
  · intro h
    exact ⟨by simp [validate, h], rfl⟩
  · intro fields h
    unfold validate at h
    cases hf : findUser db payload.sub with
    | none => rw [hf] at h; cases h
    | some u =>
      unfold findUser at hf
      have hmem : u ∈ db.users := List.mem_of_find?_eq_some hf
      have hid : u.id = payload.sub := by simpa using List.find?_some hf
      exact ⟨u, hmem, hid⟩

/-- Witness for C10: account 99 does not exist in the sample database, so its
token is rejected. -/
theorem C10_witness :
    validate dbEx { sub := 99, username := "ghost", role := .User } =
      .error (.unauthorized "User not found") :=
  ((C10_deleted_account_token_rejected dbEx
      { sub := 99, username := "ghost", role := .User }).1 (by decide)).1

/-! ## C2: profile picture access -/

/-- C2 counterexample: on the sample database the owner of account 1 exists
and requester 2 differs, yet `getProfilePicture` raises
`UnauthorizedException` — HTTP 401 under the NestJS mapping — not the 403 the
claim requires for an authorization failure. -/
theorem C2_counterexample :
    getProfilePicture dbEx 1 2 =
      .error (.unauthorized "You can only access your own profile picture") ∧
    (Err.unauthorized "You can only access your own profile picture").statusCode = 401 ∧
    (Err.unauthorized "You can only access your own profile picture").statusCode ≠ 403 := by
  refine ⟨rfl, rfl, by decide⟩

/-- C2 amended: when the owner account exists and the requester differs, the
operation fails with an `UnauthorizedException` (mapped to 401, not 403) — an
outcome still distinct from not-found — and the picture path is ever returned
only to the owner. -/
theorem C2_only_owner_gets_picture (db : DB) (userId requesterId : Nat) :
    (findUser db userId ≠ none → userId ≠ requesterId →
      getProfilePicture db userId requesterId =
        .error (.unauthorized "You can only access your own profile picture") ∧
      (Err.unauthorized "You can only access your own profile picture").statusCode = 401 ∧
      (∀ m1 m2, Err.unauthorized m1 ≠ Err.notFound m2)) ∧
    (∀ p, getProfilePicture db userId requesterId = .ok p → userId = requesterId) := by
  constructor
  · intro hex hne
    refine ⟨?_, rfl, fun m1 m2 h => by cases h⟩
    unfold getProfilePicture
    cases hf : findUser db userId with
    | none => exact absurd hf hex
    | some u => simp [hne]
  · intro p h
    unfold getProfilePicture at h
    cases hf : findUser db userId with
    | none => rw [hf] at h; cases h
    | some u =>
      simp only [hf] at h
      by_cases hne : userId = requesterId
      · exact hne
      · rw [if_pos hne] at h
        cases h

/-- Witness for the amended C2 on the sample database. -/
theorem C2_witness :
    getProfilePicture dbEx 1 2 =
      .error (.unauthorized "You can only access your own profile picture") :=
  (((C2_only_owner_gets_picture dbEx 1 2).1 (by decide) (by decide)).1)

/-! ## C4: login does not reveal which check failed -/

/-- C4: a login whose username matches no account and a login whose password
fails bcrypt verification raise the same `UnauthorizedException` with the
identical message "Invalid credentials", so the error output does not reveal
whether the username exists; the final conjunct states the two-run
hyperproperty directly. -/
theorem C4_login_uniform_error (verify verify2 : String → String → Bool)
    (db db2 : DB) (dto dto2 : LoginDto) :
    (dto.username.isEmpty = false → dto.password.isEmpty = false →
      (db.users.find? (fun u => decide (u.username = dto.username)) = none →
        login verify db dto = .error (.unauthorized "Invalid credentials")) ∧
      (∀ u, db.users.find? (fun u => decide (u.username = dto.username)) = some u →
        verify dto.password u.password = false →
        login verify db dto = .error (.unauthorized "Invalid credentials"))) ∧
    (dto.username.isEmpty = false → dto.password.isEmpty = false →
     dto2.username.isEmpty = false → dto2.password.isEmpty = false →
     db.users.find? (fun u => decide (u.username = dto.username)) = none →
     ∀ u, db2.users.find? (fun u => decide (u.username = dto2.username)) = some u →
       verify2 dto2.password u.password = false →
       login verify db dto = login verify2 db2 dto2) := by
  constructor
  · intro hu hp
    constructor
    · intro hnone
      simp [login, hu, hp, hnone]
    · intro u hsome hv
      simp [login, hu, hp, hsome, hv]
  · intro hu hp hu2 hp2 hnone u hsome hv
    have h1 : login verify db dto = .error (.unauthorized "Invalid credentials") := by
      simp [login, hu, hp, hnone]
    have h2 : login verify2 db2 dto2 = .error (.unauthorized "Invalid credentials") := by
      simp [login, hu2, hp2, hsome, hv]
    rw [h1, h2]

/-- Witness for C4: with a verifier that rejects everything, the unknown-user
run and the wrong-password run return the very same error. -/
theorem C4_witness :
    login (fun _ _ => false) dbEx { username := "ghost", password := "pw" } =
      login (fun _ _ => false) dbEx { username := "alice", password := "wrong" } :=
  (C4_login_uniform_error (fun _ _ => false) (fun _ _ => false) dbEx dbEx
      { username := "ghost", password := "pw" }
      { username := "alice", password := "wrong" }).2
    (by decide) (by decide) (by decide) (by decide) (by decide)
    alice (by decide) (by decide)

/-! ## C5: password never serialized -/

/-- C5: every operation that returns account data — register, login,
getProfile, updateProfile, updateProfilePicture, and the admin operations
create, findAll, findOne, update, updateRole — produces a body with no
`password` key. -/
theorem C5_no_password_in_responses (hash : String → String)
    (verify : String → String → Bool) (db : DB) (now : Nat) :
    (∀ dto db2 resp, register hash db dto now = .ok (db2, resp) →
      noPasswordKey resp.user) ∧
    (∀ dto resp, login verify db dto = .ok resp → noPasswordKey resp.user) ∧
    (∀ uid fields, getProfile db uid = .ok fields → noPasswordKey fields) ∧
    (∀ uid dto db2 fields, updateProfile db uid dto now = .ok (db2, fields) →
      noPasswordKey fields) ∧
    (∀ uid f db2 fields, updateProfilePicture db uid f now = .ok (db2, fields) →
      noPasswordKey fields) ∧
    (∀ dto db2 fields, usersCreate hash db dto now = .ok (db2, fields) →
      noPasswordKey fields) ∧
    (∀ q, ∀ fields ∈ (usersFindAll db q).data, noPasswordKey fields) ∧
    (∀ id fields, usersFindOne db id = .ok fields → noPasswordKey fields) ∧
    (∀ id dto db2 fields, usersUpdate hash db id dto now = .ok (db2, fields) →
      noPasswordKey fields) ∧
    (∀ id role db2 fields, usersUpdateRole db id role now = .ok (db2, fields) →
      noPasswordKey fields) := by
  refine ⟨?_, ?_, ?_, ?_, ?_, ?_, ?_, ?_, ?_, ?_⟩
  · intro dto db2 resp h
    obtain ⟨-, -, -, -, -, -, hresp⟩ := register_ok h
    rw [hresp]
    exact userWithoutPassword_noPassword _
  · intro dto resp h
    obtain ⟨u, -, -, hresp⟩ := login_ok h
    rw [hresp]
    exact userWithoutPassword_noPassword _
  · intro uid fields h
    obtain ⟨u, -, hresp⟩ := getProfile_ok h
    rw [hresp]
    exact userWithoutPassword_noPassword _
  · intro uid dto db2 fields h
    obtain ⟨u, -, -, hresp⟩ := updateProfile_ok h
    rw [hresp]
    exact userWithoutPassword_noPassword _
  · intro uid f db2 fields h
    obtain ⟨u, -, -, hresp⟩ := updateProfilePicture_ok h
    rw [hresp]
    exact userWithoutPassword_noPassword _
  · intro dto db2 fields h
    obtain ⟨-, -, -, -, hresp⟩ := usersCreate_ok h
    rw [hresp]
    exact userWithoutPassword_noPassword _
  · intro q fields hmem
    unfold usersFindAll at hmem
    simp only [List.mem_map] at hmem
    obtain ⟨u, -, hresp⟩ := hmem
    rw [← hresp]
    exact userWithoutPassword_noPassword _
  · intro id fields h
    obtain ⟨u, -, hresp⟩ := usersFindOne_ok h
    rw [hresp]
    exact userWithoutPassword_noPassword _
  · intro id dto db2 fields h
    obtain ⟨u, -, -, -, hresp⟩ := usersUpdate_ok h
    rw [hresp]
    exact userWithoutPassword_noPassword _
  · intro id role db2 fields h
    obtain ⟨u, r, -, -, -, hresp⟩ := usersUpdateRole_ok h
    rw [hresp]
    exact userWithoutPassword_noPassword _

/-- Witness for C5: the concrete profile body of account 1 carries no
password key. -/
theorem C5_witness :
    noPasswordKey (userWithoutPassword alice) :=
  (C5_no_password_in_responses (fun p => p) (fun _ _ => true) dbEx 0).2.2.1
    1 (userWithoutPassword alice) rfl

/-! ## C7: pagination metadata -/

/-- C7: for `getTasks` with page ≥ 1 and limit ≥ 1 over the n matching tasks,
the page skips the first (page-1)·limit matching tasks — its length is
min(limit, n - (page-1)·limit), hence at most limit — `meta.total` is n,
`meta.totalPages` is the ceiling of n / limit, `meta.hasNext` holds exactly
when page < totalPages, and `meta.hasPrevious` exactly when page > 1. -/
theorem C7_pagination (db : DB) (uid : Nat) (q : TaskQuery)
    (hp : 1 ≤ q.page) (hl : 1 ≤ q.limit) :
    (getTasks db uid q).meta.total = (db.tasks.filter (taskMatches uid q.search)).length ∧
    (getTasks db uid q).meta.page = q.page ∧
    (getTasks db uid q).meta.limit = q.limit ∧
    (getTasks db uid q).meta.totalPages =
      (db.tasks.filter (taskMatches uid q.search)).length ⌈/⌉ q.limit ∧
    (getTasks db uid q).data.length =
      min q.limit
        ((db.tasks.filter (taskMatches uid q.search)).length - (q.page - 1) * q.limit) ∧
    (getTasks db uid q).data.length ≤ q.limit ∧
    ((getTasks db uid q).meta.hasNext = true ↔
      q.page < (db.tasks.filter (taskMatches uid q.search)).length ⌈/⌉ q.limit) ∧
    ((getTasks db uid q).meta.hasPrevious = true ↔ 1 < q.page) := by
  have hlen : (getTasks db uid q).data.length =
      min q.limit
        ((db.tasks.filter (taskMatches uid q.search)).length - (q.page - 1) * q.limit) := by
    simp [getTasks, List.length_take, List.length_drop, List.length_mergeSort]
  refine ⟨rfl, rfl, rfl, rfl, hlen, ?_, ?_, ?_⟩
  · rw [hlen]
    exact Nat.min_le_left _ _
  · exact decide_eq_true_iff
  · exact decide_eq_true_iff

/-- Witness for C7: page 2 with limit 10 of 25 tasks returns 10 items with
totalPages 3, hasNext and hasPrevious both true. -/
theorem C7_witness :
    (getTasks db25 1 q2).data.length = 10 ∧
    (getTasks db25 1 q2).meta.total = 25 ∧
    (getTasks db25 1 q2).meta.totalPages = 3 ∧
    (getTasks db25 1 q2).meta.hasNext = true ∧
    (getTasks db25 1 q2).meta.hasPrevious = true := by
  obtain ⟨h1, h2, h3, h4, h5, h6, h7, h8⟩ :=
    C7_pagination db25 1 q2 (by decide) (by decide)
  have hn : (db25.tasks.filter (taskMatches 1 q2.search)).length = 25 := by decide
  refine ⟨?_, ?_, ?_, ?_, ?_⟩
  · rw [h5, hn]; decide
  · rw [h1]; exact hn
  · rw [h4, hn]; decide
  · exact h7.mpr (by rw [hn]; decide)
  · exact h8.mpr (by decide)

/-! ## C8: search filter -/

/-- Paging helper: an element of a list appears on some 1-based page of size
l. -/
theorem mem_take_drop_page {α : Type} (xs : List α) (l : Nat) (hl : 1 ≤ l)
    (x : α) (hx : x ∈ xs) :
    ∃ p, 1 ≤ p ∧ x ∈ (xs.drop ((p - 1) * l)).take l := by
  obtain ⟨i, hi, hget⟩ := List.mem_iff_getElem.mp hx
  refine ⟨i / l + 1, Nat.le_add_left 1 (i / l), ?_⟩
  have hstep : (i / l + 1 - 1) * l = l * (i / l) := by
    simp [Nat.mul_comm]
  rw [List.mem_iff_getElem?]
  refine ⟨i % l, ?_⟩
  rw [List.getElem?_take, if_pos (Nat.mod_lt _ (by omega)), List.getElem?_drop,
    hstep, Nat.div_add_mod, List.getElem?_eq_getElem hi, hget]

/-- C8: every task returned by `getTasks` is a stored task of the requesting
account that satisfies the search clause; when a non-empty search term is
given the task's name or description contains it case-insensitively; and,
conversely, every stored matching task of that account is returned on some
page — so tasks of other accounts are never returned, matching ones
always are. -/
theorem C8_search_scoping (db : DB) (uid : Nat) (q : TaskQuery) :
    (∀ t ∈ (getTasks db uid q).data,
      t ∈ db.tasks ∧ t.userId = uid ∧ taskMatches uid q.search t = true) ∧
    (∀ s, q.search = some s → s.isEmpty = false →
      ∀ t ∈ (getTasks db uid q).data,
        containsCI t.name s = true ∨
        ∃ d, t.description = some d ∧ containsCI d s = true) ∧
    (1 ≤ q.limit →
      ∀ t ∈ db.tasks, taskMatches uid q.search t = true →
        ∃ p, 1 ≤ p ∧ t ∈ (getTasks db uid { q with page := p }).data) := by
  have hsound : ∀ t ∈ (getTasks db uid q).data,
      t ∈ db.tasks ∧ t.userId = uid ∧ taskMatches uid q.search t = true := by
    intro t ht
    have hd : (getTasks db uid q).data =
        (((db.tasks.filter (taskMatches uid q.search)).mergeSort
            (taskLe q.sortBy q.sortOrder)).drop ((q.page - 1) * q.limit)).take q.limit := rfl
    rw [hd] at ht
    have h1 := List.mem_of_mem_drop (List.mem_of_mem_take ht)
    have h2 : t ∈ db.tasks.filter (taskMatches uid q.search) :=
      (List.mergeSort_perm _ _).mem_iff.mp h1
    have h3 := List.mem_filter.mp h2
    refine ⟨h3.1, ?_, h3.2⟩
    have h4 := h3.2
    unfold taskMatches at h4
    simp only [Bool.and_eq_true] at h4
    exact of_decide_eq_true h4.1
  refine ⟨hsound, ?_, ?_⟩
  · intro s hs hne t ht
    have h4 := (hsound t ht).2.2
    unfold taskMatches at h4
    rw [hs] at h4
    simp only [Bool.and_eq_true] at h4
    have h5 := h4.2
    rw [hne] at h5
    simp only [Bool.false_or, Bool.or_eq_true] at h5
    rcases h5 with h5 | h5
    · exact Or.inl h5
    · cases hdesc : t.description with
      | none => rw [hdesc] at h5; cases h5
      | some d =>
        rw [hdesc] at h5
        exact Or.inr ⟨d, rfl, h5⟩
  · intro hl t ht hm
    have h2 : t ∈ db.tasks.filter (taskMatches uid q.search) :=
      List.mem_filter.mpr ⟨ht, hm⟩
    have h1 : t ∈ (db.tasks.filter (taskMatches uid q.search)).mergeSort
        (taskLe q.sortBy q.sortOrder) :=
      (List.mergeSort_perm _ _).mem_iff.mpr h2
    obtain ⟨p, hp1, hpmem⟩ := mem_take_drop_page _ q.limit hl t h1
    refine ⟨p, hp1, ?_⟩
    have hd : (getTasks db uid { q with page := p }).data =
        (((db.tasks.filter (taskMatches uid q.search)).mergeSort
            (taskLe q.sortBy q.sortOrder)).drop ((p - 1) * q.limit)).take q.limit := rfl
    rw [hd]
    exact hpmem

/-- Witness for C8: "Write documentation" is returned to its owner for the
search "document", is excluded for the search "xyz", and bob's matching task
is never returned to alice. -/
theorem C8_witness :
    (∃ p, 1 ≤ p ∧ docTask ∈ (getTasks dbEx 1 { qSearch with page := p }).data) ∧
    docTask ∉ (getTasks dbEx 1 qXyz).data ∧
    bobTask ∉ (getTasks dbEx 1 qSearch).data := by
  refine ⟨?_, ?_, ?_⟩
  · exact (C8_search_scoping dbEx 1 qSearch).2.2 (by decide) docTask (by decide) (by decide)
  · intro h
    exact absurd ((C8_search_scoping dbEx 1 qXyz).1 docTask h).2.2 (by decide)
  · intro h
    exact absurd ((C8_search_scoping dbEx 1 qSearch).1 bobTask h).2.2 (by decide)

/-! ## C9: profile update frame -/

/-- C9: a successful `updateProfile` changes at most the caller's email,
phoneNumber, firstName and lastName: every other account row survives
unchanged, and every row of the new store keeps its old role, username,
password and profilePicture (the accepted DTO has no such fields); moreover
the duplicate checks exclude the caller's own record, so an update whose
email/phone values collide with no OTHER account — in particular
re-submitting one's own current email or phone — succeeds. -/
theorem C9_update_profile_frame (db : DB) (uid : Nat) (dto : UpdateProfileDto)
    (now : Nat) :
    (∀ db2 fields, updateProfile db uid dto now = .ok (db2, fields) →
      (∀ v ∈ db.users, v.id ≠ uid → v ∈ db2.users) ∧
      (∀ v2 ∈ db2.users, ∃ v ∈ db.users, v2.id = v.id ∧ v2.role = v.role ∧
        v2.username = v.username ∧ v2.password = v.password ∧
        v2.profilePicture = v.profilePicture)) ∧
    (∀ u, findUser db uid = some u →
      (optFalsy dto.email = false →
        ∀ v ∈ db.users, v.id ≠ uid → v.email ≠ dto.email) →
      (optFalsy dto.phoneNumber = false →
        ∀ v ∈ db.users, v.id ≠ uid → v.phoneNumber ≠ dto.phoneNumber) →
      ∃ db2 fields, updateProfile db uid dto now = .ok (db2, fields)) := by
  constructor
  · intro db2 fields h
    obtain ⟨u, hfind, hdb2, -⟩ := updateProfile_ok h
    have humem : u ∈ db.users := by
      unfold findUser at hfind
      exact List.mem_of_find?_eq_some hfind
    constructor
    · intro v hv hne
      rw [hdb2]
      have : (if v.id = uid then applyProfileUpdate dto now u else v) = v :=
        if_neg hne
      rw [← this]
      exact List.mem_map_of_mem _ hv
    · intro v2 hv2
      rw [hdb2] at hv2
      obtain ⟨v, hv, heq⟩ := List.mem_map.mp hv2
      by_cases hid : v.id = uid
      · rw [if_pos hid] at heq
        exact ⟨u, humem, by rw [← heq]; exact ⟨rfl, rfl, rfl, rfl, rfl⟩⟩
      · rw [if_neg hid] at heq
        exact ⟨v, hv, by rw [← heq]; exact ⟨rfl, rfl, rfl, rfl, rfl⟩⟩
  · intro u hfind hemail hphone
    have hdup : checkForDuplicates db uid dto = none := by
      unfold checkForDuplicates
      have c1 : (!optFalsy dto.email &&
          db.users.any (fun v => decide (v.email = dto.email) && decide (v.id ≠ uid))) = false := by
        cases hf : optFalsy dto.email with
        | true => simp [hf]
        | false =>
          simp only [hf, Bool.not_false, Bool.true_and]
          rw [List.any_eq_false]
          intro v hv hcontra
          simp only [Bool.and_eq_true, decide_eq_true_eq] at hcontra
          exact hemail hf v hv hcontra.2 hcontra.1
      have c2 : (!optFalsy dto.phoneNumber &&
          db.users.any (fun v => decide (v.phoneNumber = dto.phoneNumber) && decide (v.id ≠ uid))) = false := by
        cases hf : optFalsy dto.phoneNumber with
        | true => simp [hf]
        | false =>
          simp only [hf, Bool.not_false, Bool.true_and]
          rw [List.any_eq_false]
          intro v hv hcontra
          simp only [Bool.and_eq_true, decide_eq_true_eq] at hcontra
          exact hphone hf v hv hcontra.2 hcontra.1
      simp only [c1, c2]
      rfl
    have hnone : (if !optFalsy dto.email || !optFalsy dto.phoneNumber then
        checkForDuplicates db uid dto else none) = none := by
      by_cases hgate : (!optFalsy dto.email || !optFalsy dto.phoneNumber) = true
      · rw [if_pos hgate, hdup]
      · rw [if_neg hgate]
    have heq : updateProfile db uid dto now = .ok
        ({ db with users := db.users.map (fun v =>
            if v.id = uid then applyProfileUpdate dto now u else v) },
         userWithoutPassword (applyProfileUpdate dto now u)) := by
      unfold updateProfile
      simp only [hfind]
      rw [hnone]
    exact ⟨_, _, heq⟩

/-- Witness for C9: alice re-submits her own current email together with a
first-name change, and the update succeeds. -/
theorem C9_witness :
    ∃ db2 fields, updateProfile dbEx 1 dtoSelf 50 = .ok (db2, fields) :=
  (C9_update_profile_frame dbEx 1 dtoSelf 50).2 alice (by decide)
    (fun _ => by decide) (fun h => by cases h)

/-! ## C3: registration -/

/-- `jsEqOpt` holds exactly when both sides are present and equal. -/
theorem jsEqOpt_true {a b : Option String} :
    jsEqOpt a b = true ↔ ∃ x, a = some x ∧ b = some x := by
  cases a with
  | none => simp [jsEqOpt]
  | some x =>
    cases b with
    | none => simp [jsEqOpt]
    | some y =>
      simp only [jsEqOpt, beq_iff_eq, Option.some.injEq]
      constructor
      · intro h
        exact ⟨x, rfl, h.symm⟩
      · rintro ⟨z, hz1, hz2⟩
        exact hz1.trans hz2.symm

/-- A message produced by the duplicate pre-check is one of the three
"already in use" messages. -/
theorem registerDupMsg_some {db : DB} {email phoneNumber : Option String}
    {username msg : String}
    (h : registerDupMsg db email phoneNumber username = some msg) :
    msg = "Email already in use" ∨ msg = "Phone number already in use" ∨
    msg = "Username already in use" := by
  unfold registerDupMsg at h
  cases hfind : db.users.find? (registerConflictQuery email phoneNumber username) with
  | none => rw [hfind] at h; cases h
  | some ex =>
    simp only [hfind] at h
    by_cases h1 : jsEqOpt ex.email email = true
    · rw [if_pos h1] at h; injection h with h2; exact Or.inl h2.symm
    rw [if_neg h1] at h
    by_cases h2 : jsEqOpt ex.phoneNumber phoneNumber = true
    · rw [if_pos h2] at h; injection h with h3; exact Or.inr (Or.inl h3.symm)
    rw [if_neg h2] at h
    by_cases h3 : ex.username = username
    · rw [if_pos h3] at h; injection h with h4; exact Or.inr (Or.inr h4.symm)
    · rw [if_neg h3] at h; cases h

/-- The database-level unique check passes exactly when none of the three
per-column scans finds a collision. -/
theorem uniqueViolation_eq_none {db : DB} {email phoneNumber : Option String}
    {username : String} :
    uniqueViolation db email phoneNumber username = none ↔
      db.users.any (fun u => decide (u.username = username)) = false ∧
      db.users.any (fun u => email.isSome && decide (u.email = email)) = false ∧
      db.users.any (fun u => phoneNumber.isSome && decide (u.phoneNumber = phoneNumber)) = false := by
  unfold uniqueViolation
  cases h1 : db.users.any (fun u => decide (u.username = username)) with
  | true => simp [h1]
  | false =>
    cases h2 : db.users.any (fun u => email.isSome && decide (u.email = email)) with
    | true => simp [h1, h2]
    | false =>
      cases h3 : db.users.any (fun u => phoneNumber.isSome && decide (u.phoneNumber = phoneNumber)) with
      | true => simp [h1, h2, h3]
      | false => simp [h1, h2, h3]

/-- With no email and no phone conflict anywhere in the store, a message from
the duplicate pre-check can only be the username one. -/
theorem registerDupMsg_some_noEP {db : DB} {email phoneNumber : Option String}
    {username msg : String}
    (hNoE : ∀ u ∈ db.users, ¬(email ≠ none ∧ u.email = email))
    (hNoP : ∀ u ∈ db.users, ¬(phoneNumber ≠ none ∧ u.phoneNumber = phoneNumber))
    (h : registerDupMsg db email phoneNumber username = some msg) :
    msg = "Username already in use" := by
  unfold registerDupMsg at h
  cases hfind : db.users.find? (registerConflictQuery email phoneNumber username) with
  | none => rw [hfind] at h; cases h
  | some ex =>
    simp only [hfind] at h
    have hexmem : ex ∈ db.users := List.mem_of_find?_eq_some hfind
    have hje : ¬jsEqOpt ex.email email = true := by
      intro hcontra
      obtain ⟨x, hx1, hx2⟩ := jsEqOpt_true.mp hcontra
      exact hNoE ex hexmem ⟨by rw [hx2]; simp, hx1.trans hx2.symm⟩
    have hjp : ¬jsEqOpt ex.phoneNumber phoneNumber = true := by
      intro hcontra
      obtain ⟨x, hx1, hx2⟩ := jsEqOpt_true.mp hcontra
      exact hNoP ex hexmem ⟨by rw [hx2]; simp, hx1.trans hx2.symm⟩
    rw [if_neg hje, if_neg hjp] at h
    by_cases hun : ex.username = username
    · rw [if_pos hun] at h
      injection h with h5
      exact h5.symm
    · rw [if_neg hun] at h; cases h

/-- With no username and no phone conflict anywhere in the store, a message
from the duplicate pre-check can only be the email one. -/
theorem registerDupMsg_some_noUP {db : DB} {email phoneNumber : Option String}
    {username msg : String}
    (hNoU : ∀ u ∈ db.users, u.username ≠ username)
    (hNoP : ∀ u ∈ db.users, ¬(phoneNumber ≠ none ∧ u.phoneNumber = phoneNumber))
    (h : registerDupMsg db email phoneNumber username = some msg) :
    msg = "Email already in use" := by
  unfold registerDupMsg at h
  cases hfind : db.users.find? (registerConflictQuery email phoneNumber username) with
  | none => rw [hfind] at h; cases h
  | some ex =>
    simp only [hfind] at h
    have hexmem : ex ∈ db.users := List.mem_of_find?_eq_some hfind
    by_cases hje : jsEqOpt ex.email email = true
    · rw [if_pos hje] at h
      injection h with h5
      exact h5.symm
    rw [if_neg hje] at h
    have hjp : ¬jsEqOpt ex.phoneNumber phoneNumber = true := by
      intro hcontra
      obtain ⟨x, hx1, hx2⟩ := jsEqOpt_true.mp hcontra
      exact hNoP ex hexmem ⟨by rw [hx2]; simp, hx1.trans hx2.symm⟩
    rw [if_neg hjp] at h
    by_cases hun : ex.username = username
    · exact absurd hun (hNoU ex hexmem)
    · rw [if_neg hun] at h; cases h

/-- With no username and no email conflict anywhere in the store, a message
from the duplicate pre-check can only be the phone one. -/
theorem registerDupMsg_some_noUE {db : DB} {email phoneNumber : Option String}
    {username msg : String}
    (hNoU : ∀ u ∈ db.users, u.username ≠ username)
    (hNoE : ∀ u ∈ db.users, ¬(email ≠ none ∧ u.email = email))
    (h : registerDupMsg db email phoneNumber username = some msg) :
    msg = "Phone number already in use" := by
  unfold registerDupMsg at h
  cases hfind : db.users.find? (registerConflictQuery email phoneNumber username) with
  | none => rw [hfind] at h; cases h
  | some ex =>
    simp only [hfind] at h
    have hexmem : ex ∈ db.users := List.mem_of_find?_eq_some hfind
    have hje : ¬jsEqOpt ex.email email = true := by
      intro hcontra
      obtain ⟨x, hx1, hx2⟩ := jsEqOpt_true.mp hcontra
      exact hNoE ex hexmem ⟨by rw [hx2]; simp, hx1.trans hx2.symm⟩
    rw [if_neg hje] at h
    by_cases hjp : jsEqOpt ex.phoneNumber phoneNumber = true
    · rw [if_pos hjp] at h
      injection h with h5
      exact h5.symm
    rw [if_neg hjp] at h
    by_cases hun : ex.username = username
    · exact absurd hun (hNoU ex hexmem)
    · rw [if_neg hun] at h; cases h

/-- With no conflict anywhere in the store, the duplicate pre-check is
silent. -/
theorem registerDupMsg_none {db : DB} {email phoneNumber : Option String}
    {username : String}
    (hNoU : ∀ u ∈ db.users, u.username ≠ username)
    (hNoE : ∀ u ∈ db.users, ¬(email ≠ none ∧ u.email = email))
    (hNoP : ∀ u ∈ db.users, ¬(phoneNumber ≠ none ∧ u.phoneNumber = phoneNumber)) :
    registerDupMsg db email phoneNumber username = none := by
  unfold registerDupMsg
  cases hfind : db.users.find? (registerConflictQuery email phoneNumber username) with
  | none => rfl
  | some ex =>
    dsimp only
    have hexmem : ex ∈ db.users := List.mem_of_find?_eq_some hfind
    have hje : ¬jsEqOpt ex.email email = true := by
      intro hcontra
      obtain ⟨x, hx1, hx2⟩ := jsEqOpt_true.mp hcontra
      exact hNoE ex hexmem ⟨by rw [hx2]; simp, hx1.trans hx2.symm⟩
    have hjp : ¬jsEqOpt ex.phoneNumber phoneNumber = true := by
      intro hcontra
      obtain ⟨x, hx1, hx2⟩ := jsEqOpt_true.mp hcontra
      exact hNoP ex hexmem ⟨by rw [hx2]; simp, hx1.trans hx2.symm⟩
    rw [if_neg hje, if_neg hjp, if_neg (hNoU ex hexmem)]

/-- C3: registration. (1) With both contact fields absent it fails with a
validation bad-request — the canonical message once the username/password
required-field checks pass — and no account is created. (2) Whenever an
existing account already holds the given username, email, or phone number it
fails with an "already in use" bad-request. (3-5) When exactly one of the
three fields is in conflict, the message is the corresponding one. (6) A
success appends exactly one account whose role is `User` and returns it with
the password field excluded plus a signed token whose payload carries the new
account's id, username and role. (7) With no conflict and a contact present,
registration succeeds. -/
theorem C3_register_spec (hash : String → String) (db : DB) (dto : RegisterDto)
    (now : Nat) :
    (optFalsy dto.email = true → optFalsy dto.phoneNumber = true →
      (∃ msg, register hash db dto now = .error (.badRequest msg)) ∧
      (dto.username.isEmpty = false → dto.password.isEmpty = false →
        register hash db dto now =
          .error (.badRequest "Either email or phone number must be provided"))) ∧
    (dto.username.isEmpty = false → dto.password.isEmpty = false →
     (optFalsy dto.email && optFalsy dto.phoneNumber) = false →
     (∃ u ∈ db.users, u.username = dto.username ∨
        (dto.email ≠ none ∧ u.email = dto.email) ∨
        (dto.phoneNumber ≠ none ∧ u.phoneNumber = dto.phoneNumber)) →
     ∃ msg, register hash db dto now = .error (.badRequest msg) ∧
       (msg = "Email already in use" ∨ msg = "Phone number already in use" ∨
        msg = "Username already in use")) ∧
    (dto.username.isEmpty = false → dto.password.isEmpty = false →
     (optFalsy dto.email && optFalsy dto.phoneNumber) = false →
     (∃ u ∈ db.users, u.username = dto.username) →
     (∀ u ∈ db.users, ¬(dto.email ≠ none ∧ u.email = dto.email)) →
     (∀ u ∈ db.users, ¬(dto.phoneNumber ≠ none ∧ u.phoneNumber = dto.phoneNumber)) →
     register hash db dto now = .error (.badRequest "Username already in use")) ∧
    (dto.username.isEmpty = false → dto.password.isEmpty = false →
     (optFalsy dto.email && optFalsy dto.phoneNumber) = false →
     (∀ u ∈ db.users, u.username ≠ dto.username) →
     (∃ u ∈ db.users, dto.email ≠ none ∧ u.email = dto.email) →
     (∀ u ∈ db.users, ¬(dto.phoneNumber ≠ none ∧ u.phoneNumber = dto.phoneNumber)) →
     register hash db dto now = .error (.badRequest "Email already in use")) ∧
    (dto.username.isEmpty = false → dto.password.isEmpty = false →
     (optFalsy dto.email && optFalsy dto.phoneNumber) = false →
     (∀ u ∈ db.users, u.username ≠ dto.username) →
     (∀ u ∈ db.users, ¬(dto.email ≠ none ∧ u.email = dto.email)) →
     (∃ u ∈ db.users, dto.phoneNumber ≠ none ∧ u.phoneNumber = dto.phoneNumber) →
     register hash db dto now = .error (.badRequest "Phone number already in use")) ∧
    (∀ db2 resp, register hash db dto now = .ok (db2, resp) →
      db2.users = db.users ++ [registerRow hash db dto now] ∧
      (registerRow hash db dto now).role = .User ∧
      resp.user = userWithoutPassword (registerRow hash db dto now) ∧
      noPasswordKey resp.user ∧
      resp.token = { sub := (registerRow hash db dto now).id
                   , username := (registerRow hash db dto now).username
                   , role := (registerRow hash db dto now).role }) ∧
    (dto.username.isEmpty = false → dto.password.isEmpty = false →
     (optFalsy dto.email && optFalsy dto.phoneNumber) = false →
     (∀ u ∈ db.users, u.username ≠ dto.username) →
     (∀ u ∈ db.users, ¬(dto.email ≠ none ∧ u.email = dto.email)) →
     (∀ u ∈ db.users, ¬(dto.phoneNumber ≠ none ∧ u.phoneNumber = dto.phoneNumber)) →
     ∃ db2 resp, register hash db dto now = .ok (db2, resp)) := by
  have hred : ∀ (_ : dto.username.isEmpty = false) (_ : dto.password.isEmpty = false)
      (_ : (optFalsy dto.email && optFalsy dto.phoneNumber) = false),
      register hash db dto now =
        (match registerDupMsg db dto.email dto.phoneNumber dto.username with
         | some msg => .error (.badRequest msg)
         | none =>
           match uniqueViolation db dto.email dto.phoneNumber dto.username with
           | some .email => .error (.badRequest "Email already in use")
           | some .username => .error (.badRequest "Username already in use")
           | some .phoneNumber => .error (.badRequest "Phone number already in use")
           | none => .ok ({ db with users := db.users ++ [registerRow hash db dto now], userSeq := db.userSeq + 1 },
                          buildUserResponse (registerRow hash db dto now))) := by
    intro hu hp hc
    unfold register
    rw [if_neg (by simp [hu]), if_neg (by simp [hp]), if_neg (by simp [hc])]
  have andI : ∀ {a b : Bool}, a = true → b = true → (a && b) = true := by
    intro a b ha hb
    rw [ha, hb]
    rfl
  have anyU_false : (∀ u ∈ db.users, u.username ≠ dto.username) →
      db.users.any (fun u => decide (u.username = dto.username)) = false :=
    fun hyp => List.any_eq_false.mpr
      (fun u hu2 h => hyp u hu2 (of_decide_eq_true h))
  have anyE_false : (∀ u ∈ db.users, ¬(dto.email ≠ none ∧ u.email = dto.email)) →
      db.users.any (fun u => dto.email.isSome && decide (u.email = dto.email)) = false := by
    intro hyp
    rw [List.any_eq_false]
    intro u hu2 h
    simp only [Bool.and_eq_true, decide_eq_true_eq] at h
    exact hyp u hu2 ⟨Option.isSome_iff_ne_none.mp h.1, h.2⟩
  have anyP_false : (∀ u ∈ db.users, ¬(dto.phoneNumber ≠ none ∧ u.phoneNumber = dto.phoneNumber)) →
      db.users.any (fun u => dto.phoneNumber.isSome && decide (u.phoneNumber = dto.phoneNumber)) = false := by
    intro hyp
    rw [List.any_eq_false]
    intro u hu2 h
    simp only [Bool.and_eq_true, decide_eq_true_eq] at h
    exact hyp u hu2 ⟨Option.isSome_iff_ne_none.mp h.1, h.2⟩
  refine ⟨?_, ?_, ?_, ?_, ?_, ?_, ?_⟩
  · -- (1) both contacts missing
    intro he hp2
    constructor
    · cases h1 : dto.username.isEmpty with
      | true => exact ⟨"Username is required", by unfold register; rw [if_pos h1]⟩
      | false =>
        cases h2 : dto.password.isEmpty with
        | true =>
          exact ⟨"Password is required",
            by unfold register; rw [if_neg (by simp [h1]), if_pos h2]⟩
        | false =>
          refine ⟨"Either email or phone number must be provided", ?_⟩
          unfold register
          rw [if_neg (by simp [h1]), if_neg (by simp [h2]), if_pos (by rw [he, hp2]; rfl)]
    · intro hu hp3
      unfold register
      rw [if_neg (by simp [hu]), if_neg (by simp [hp3]), if_pos (by rw [he, hp2]; rfl)]
  · -- (2) some field taken
    rintro hu hp3 hc ⟨u, humem, hconf⟩
    rw [hred hu hp3 hc]
    cases hd : registerDupMsg db dto.email dto.phoneNumber dto.username with
    | some msg => exact ⟨msg, rfl, registerDupMsg_some hd⟩
    | none =>
      cases hv : uniqueViolation db dto.email dto.phoneNumber dto.username with
      | none =>
        exfalso
        obtain ⟨haU, haE, haP⟩ := uniqueViolation_eq_none.mp hv
        rcases hconf with hcu | ⟨hne, hce⟩ | ⟨hnp, hcp⟩
        · exact List.any_eq_false.mp haU u humem (decide_eq_true hcu)
        · exact List.any_eq_false.mp haE u humem
            (andI (Option.isSome_iff_ne_none.mpr hne) (decide_eq_true hce))
        · exact List.any_eq_false.mp haP u humem
            (andI (Option.isSome_iff_ne_none.mpr hnp) (decide_eq_true hcp))
      | some f =>
        cases f with
        | username => exact ⟨"Username already in use", rfl, Or.inr (Or.inr rfl)⟩
        | email => exact ⟨"Email already in use", rfl, Or.inl rfl⟩
        | phoneNumber => exact ⟨"Phone number already in use", rfl, Or.inr (Or.inl rfl)⟩
  · -- (3) only the username is taken
    rintro hu hp3 hc ⟨u, humem, hcu⟩ hNoE hNoP
    rw [hred hu hp3 hc]
    cases hd : registerDupMsg db dto.email dto.phoneNumber dto.username with
    | some msg => rw [registerDupMsg_some_noEP hNoE hNoP hd]
    | none =>
      have hv : uniqueViolation db dto.email dto.phoneNumber dto.username = some .username := by
        unfold uniqueViolation
        rw [if_pos (List.any_eq_true.mpr ⟨u, humem, decide_eq_true hcu⟩)]
      rw [hv]
  · -- (4) only the email is taken
    rintro hu hp3 hc hNoU ⟨u, humem, hne, hce⟩ hNoP
    rw [hred hu hp3 hc]
    cases hd : registerDupMsg db dto.email dto.phoneNumber dto.username with
    | some msg => rw [registerDupMsg_some_noUP hNoU hNoP hd]
    | none =>
      have hv : uniqueViolation db dto.email dto.phoneNumber dto.username = some .email := by
        unfold uniqueViolation
        rw [if_neg (by simp [anyU_false hNoU]),
            if_pos (List.any_eq_true.mpr ⟨u, humem,
              andI (Option.isSome_iff_ne_none.mpr hne) (decide_eq_true hce)⟩)]
      rw [hv]
  · -- (5) only the phone number is taken
    rintro hu hp3 hc hNoU hNoE ⟨u, humem, hnp, hcp⟩
    rw [hred hu hp3 hc]
    cases hd : registerDupMsg db dto.email dto.phoneNumber dto.username with
    | some msg => rw [registerDupMsg_some_noUE hNoU hNoE hd]
    | none =>
      have hv : uniqueViolation db dto.email dto.phoneNumber dto.username = some .phoneNumber := by
        unfold uniqueViolation
        rw [if_neg (by simp [anyU_false hNoU]), if_neg (by simp [anyE_false hNoE]),
            if_pos (List.any_eq_true.mpr ⟨u, humem,
              andI (Option.isSome_iff_ne_none.mpr hnp) (decide_eq_true hcp)⟩)]
      rw [hv]
  · -- (6) success shape
    intro db2 resp h
    obtain ⟨-, -, -, -, -, hdb2, hresp⟩ := register_ok h
    refine ⟨by rw [hdb2], rfl, by rw [hresp]; rfl, ?_, by rw [hresp]; rfl⟩
    rw [hresp]
    exact userWithoutPassword_noPassword _
  · -- (7) no conflicts: success
    intro hu hp3 hc hNoU hNoE hNoP
    have hd := registerDupMsg_none hNoU hNoE hNoP
    have hv : uniqueViolation db dto.email dto.phoneNumber dto.username = none :=
      uniqueViolation_eq_none.mpr ⟨anyU_false hNoU, anyE_false hNoE, anyP_false hNoP⟩
    have heq : register hash db dto now =
        .ok ({ db with users := db.users ++ [registerRow hash db dto now], userSeq := db.userSeq + 1 },
             buildUserResponse (registerRow hash db dto now)) := by
      rw [hred hu hp3 hc, hd, hv]
    exact ⟨_, _, heq⟩

/-- Witness for C3: with no contact field registration is rejected, with a
taken username it reports "Username already in use", and with fresh values it
succeeds. -/
theorem C3_witness :
    register (fun p => p ++ "#h") dbEx
      { email := none, phoneNumber := none, username := "carol", password := "pw" } 99 =
      .error (.badRequest "Either email or phone number must be provided") ∧
    register (fun p => p ++ "#h") dbEx
      { email := some "carol@example.com", phoneNumber := none
      , username := "alice", password := "pw" } 99 =
      .error (.badRequest "Username already in use") ∧
    (∃ db2 resp, register (fun p => p ++ "#h") dbEx
      { email := some "carol@example.com", phoneNumber := none
      , username := "carol", password := "pw" } 99 = .ok (db2, resp)) := by
  refine ⟨?_, ?_, ?_⟩
  · exact ((C3_register_spec (fun p => p ++ "#h") dbEx
      { email := none, phoneNumber := none, username := "carol", password := "pw" } 99).1
      (by decide) (by decide)).2 (by decide) (by decide)
  · exact (C3_register_spec (fun p => p ++ "#h") dbEx
      { email := some "carol@example.com", phoneNumber := none
      , username := "alice", password := "pw" } 99).2.2.1
      (by decide) (by decide) (by decide) ⟨alice, by decide, by decide⟩
      (by decide) (by decide)
  · exact (C3_register_spec (fun p => p ++ "#h") dbEx
      { email := some "carol@example.com", phoneNumber := none
      , username := "carol", password := "pw" } 99).2.2.2.2.2.2
      (by decide) (by decide) (by decide) (by decide) (by decide) (by decide)

/-! ## C6: cascade delete and referential integrity -/

/-- Inversion of a successful `getTaskById`. -/
theorem getTaskById_ok {db : DB} {tid uid : Nat} {t : Task}
    (h : getTaskById db tid uid = .ok t) :
    findTask db tid = some t ∧ t.userId = uid := by
  unfold getTaskById at h
  cases hf : findTask db tid with
  | none => rw [hf] at h; cases h
  | some t0 =>
    simp only [hf] at h
    by_cases ho : t0.userId = uid
    · rw [if_neg (not_not_intro ho)] at h
      injection h with h2
      subst h2
      exact ⟨rfl, ho⟩
    · rw [if_pos ho] at h
      cases h

/-- Referential integrity survives appending a fresh user row. -/
theorem ownersExist_append_user {db db2 : DB} {u0 : User}
    (hu : db2.users = db.users ++ [u0]) (ht : db2.tasks = db.tasks)
    (hown : ownersExist db) : ownersExist db2 := by
  intro t htm
  rw [ht] at htm
  obtain ⟨u, humem, huid⟩ := hown t htm
  exact ⟨u, by rw [hu]; exact List.mem_append_left _ humem, huid⟩

/-- Referential integrity survives any rewrite of the tasks table whose
images keep the owner of some stored task. -/
theorem ownersExist_map_tasks {db db2 : DB} {f : Task → Task}
    (hu : db2.users = db.users) (ht : db2.tasks = db.tasks.map f)
    (hf : ∀ s ∈ db.tasks, ∃ s0 ∈ db.tasks, (f s).userId = s0.userId)
    (hown : ownersExist db) : ownersExist db2 := by
  intro t htm
  rw [ht] at htm
  obtain ⟨s, hs, heq⟩ := List.mem_map.mp htm
  obtain ⟨s0, hs0, hsu⟩ := hf s hs
  obtain ⟨u, humem, huid⟩ := hown s0 hs0
  exact ⟨u, by rw [hu]; exact humem, by rw [← heq, hsu]; exact huid⟩

/-- Referential integrity survives narrowing the tasks table. -/
theorem ownersExist_filter_tasks {db db2 : DB} {p : Task → Bool}
    (hu : db2.users = db.users) (ht : db2.tasks = db.tasks.filter p)
    (hown : ownersExist db) : ownersExist db2 := by
  intro t htm
  rw [ht] at htm
  obtain ⟨u, humem, huid⟩ := hown t (List.mem_filter.mp htm).1
  exact ⟨u, by rw [hu]; exact humem, huid⟩

/-- Referential integrity survives any per-row rewrite of the users table
that keeps ids. -/
theorem ownersExist_map_users {db db2 : DB} {g : User → User}
    (hg : ∀ v, (g v).id = v.id)
    (hu : db2.users = db.users.map g) (ht : db2.tasks = db.tasks)
    (hown : ownersExist db) : ownersExist db2 := by
  intro t htm
  rw [ht] at htm
  obtain ⟨u, humem, huid⟩ := hown t htm
  refine ⟨g u, ?_, ?_⟩
  · rw [hu]
    exact List.mem_map_of_mem g humem
  · rw [hg u]
    exact huid

/-- Referential integrity survives the cascading account delete. -/
theorem ownersExist_remove {db db2 : DB} {id : Nat}
    (hu : db2.users = db.users.filter (fun u => decide (u.id ≠ id)))
    (ht : db2.tasks = db.tasks.filter (fun t => decide (t.userId ≠ id)))
    (hown : ownersExist db) : ownersExist db2 := by
  intro t htm
  rw [ht] at htm
  have h2 := List.mem_filter.mp htm
  obtain ⟨u, humem, huid⟩ := hown t h2.1
  have htuid : t.userId ≠ id := of_decide_eq_true h2.2
  refine ⟨u, ?_, huid⟩
  rw [hu]
  refine List.mem_filter.mpr ⟨humem, decide_eq_true ?_⟩
  rw [huid]
  exact htuid

/-- The id of a user row after a profile update is unchanged. -/
theorem profileUpdate_keeps_id (dto : UpdateProfileDto) (now : Nat) (uid : Nat)
    (u0 : User) (hu0 : u0.id = uid) :
    ∀ v, (if v.id = uid then applyProfileUpdate dto now u0 else v).id = v.id := by
  intro v
  by_cases hid : v.id = uid
  · rw [if_pos hid, hid, ← hu0]
    rfl
  · rw [if_neg hid]

/-- Inversion of a successful `findUser` lookup. -/
theorem findUser_some {db : DB} {id : Nat} {u : User}
    (h : findUser db id = some u) : u ∈ db.users ∧ u.id = id := by
  unfold findUser at h
  exact ⟨List.mem_of_find?_eq_some h, by simpa using List.find?_some h⟩

/-- `createTask` keeps referential integrity when the creator exists (the
route guard guarantees this: the task is created for the authenticated
user). -/
theorem ownersExist_createTask {db : DB} {uid : Nat} {dto : CreateTaskDto}
    {now : Nat} (hex : ∃ u ∈ db.users, u.id = uid) (hown : ownersExist db) :
    ownersExist (createTask db uid dto now).1 := by
  intro t ht
  simp only [createTask] at ht
  rcases List.mem_append.mp ht with h | h
  · exact hown t h
  · obtain ⟨u, humem, huid⟩ := hex
    have heq := List.mem_singleton.mp h
    refine ⟨u, humem, ?_⟩
    rw [heq]
    exact huid

/-- C6: a successful `remove(id)` deletes the account and — through the
schema's `onDelete: Cascade` — every task owned by it, so any former task id
then yields not-found (for every requester); the referential-integrity
invariant `ownersExist` is preserved by the delete and by every other
store-mutating operation of the system. -/
theorem C6_cascade_delete (db : DB) (id : Nat) :
    (∀ db2, usersRemove db id = .ok db2 →
      (tasksIdUnique db →
        ∀ t ∈ db.tasks, t.userId = id →
          findTask db2 t.id = none ∧
          (∀ uid, getTaskById db2 t.id uid = .error (.notFound "Task not found"))) ∧
      (ownersExist db → ownersExist db2)) ∧
    (ownersExist db →
      (∀ uid dto now, (∃ u ∈ db.users, u.id = uid) →
        ownersExist (createTask db uid dto now).1) ∧
      (∀ hash dto now db2 resp, register hash db dto now = .ok (db2, resp) →
        ownersExist db2) ∧
      (∀ hash dto now db2 resp, usersCreate hash db dto now = .ok (db2, resp) →
        ownersExist db2) ∧
      (∀ tid uid dto now db2 t, updateTask db tid uid dto now = .ok (db2, t) →
        ownersExist db2) ∧
      (∀ tid uid db2, deleteTask db tid uid = .ok db2 → ownersExist db2) ∧
      (∀ tid uid f now db2 t, addAttachment db tid uid f now = .ok (db2, t) →
        ownersExist db2) ∧
      (∀ tid uid now db2 t, removeAttachment db tid uid now = .ok (db2, t) →
        ownersExist db2) ∧
      (∀ uid dto now db2 resp, updateProfile db uid dto now = .ok (db2, resp) →
        ownersExist db2) ∧
      (∀ uid f now db2 resp, updateProfilePicture db uid f now = .ok (db2, resp) →
        ownersExist db2) ∧
      (∀ hash uid dto now db2 resp, usersUpdate hash db uid dto now = .ok (db2, resp) →
        ownersExist db2) ∧
      (∀ uid role now db2 resp, usersUpdateRole db uid role now = .ok (db2, resp) →
        ownersExist db2) ∧
      (∀ uid db2, usersRemove db uid = .ok db2 → ownersExist db2)) := by
  constructor
  · intro db2 hrem
    obtain ⟨hu2, ht2, -, -⟩ := usersRemove_ok hrem
    constructor
    · intro huniq t htmem hown2
      have hfind : findTask db2 t.id = none := by
        unfold findTask
        rw [ht2, List.find?_eq_none]
        intro s hs hcontra
        have hs2 := List.mem_filter.mp hs
        have hsuid : s.userId ≠ id := of_decide_eq_true hs2.2
        have hsid : s.id = t.id := of_decide_eq_true hcontra
        have hne : s ≠ t := fun he => hsuid (by rw [he, hown2])
        have hsymm : Symmetric (fun a b : Task => a.id ≠ b.id) :=
          fun x y hxy he => hxy he.symm
        exact List.Pairwise.forall hsymm huniq hs2.1 htmem hne hsid
      exact ⟨hfind, fun uid => by simp [getTaskById, hfind]⟩
    · intro hown
      exact ownersExist_remove hu2 ht2 hown
  · intro hown
    refine ⟨?_, ?_, ?_, ?_, ?_, ?_, ?_, ?_, ?_, ?_, ?_, ?_⟩
    · intro uid dto now hex
      exact ownersExist_createTask hex hown
    · intro hash dto now db2 resp h
      obtain ⟨-, -, -, -, -, hdb2, -⟩ := register_ok h
      exact ownersExist_append_user (by rw [hdb2]) (by rw [hdb2]) hown
    · intro hash dto now db2 resp h
      obtain ⟨-, -, -, hdb2, -⟩ := usersCreate_ok h
      exact ownersExist_append_user (by rw [hdb2]) (by rw [hdb2]) hown
    · intro tid uid dto now db2 t h
      obtain ⟨t0, hg, hdb2, -⟩ := updateTask_ok h
      obtain ⟨hfind0, -⟩ := getTaskById_ok hg
      have ht0mem : t0 ∈ db.tasks := by
        unfold findTask at hfind0
        exact List.mem_of_find?_eq_some hfind0
      refine ownersExist_map_tasks (by rw [hdb2]) (by rw [hdb2]) ?_ hown
      intro s hs
      by_cases hid : s.id = tid
      · refine ⟨t0, ht0mem, ?_⟩
        rw [if_pos hid]
        rfl
      · exact ⟨s, hs, by rw [if_neg hid]⟩
    · intro tid uid db2 h
      obtain ⟨-, hdb2⟩ := deleteTask_ok h
      exact ownersExist_filter_tasks (by rw [hdb2]) (by rw [hdb2]) hown
    · intro tid uid f now db2 t h
      obtain ⟨f2, t0, -, hg, hdb2, -⟩ := addAttachment_ok h
      obtain ⟨hfind0, -⟩ := getTaskById_ok hg
      have ht0mem : t0 ∈ db.tasks := by
        unfold findTask at hfind0
        exact List.mem_of_find?_eq_some hfind0
      refine ownersExist_map_tasks (by rw [hdb2]) (by rw [hdb2]) ?_ hown
      intro s hs
      by_cases hid : s.id = tid
      · refine ⟨t0, ht0mem, ?_⟩
        rw [if_pos hid]
      · exact ⟨s, hs, by rw [if_neg hid]⟩
    · intro tid uid now db2 t h
      obtain ⟨t0, hg, hdb2, -⟩ := removeAttachment_ok h
      obtain ⟨hfind0, -⟩ := getTaskById_ok hg
      have ht0mem : t0 ∈ db.tasks := by
        unfold findTask at hfind0
        exact List.mem_of_find?_eq_some hfind0
      refine ownersExist_map_tasks (by rw [hdb2]) (by rw [hdb2]) ?_ hown
      intro s hs
      by_cases hid : s.id = tid
      · refine ⟨t0, ht0mem, ?_⟩
        rw [if_pos hid]
      · exact ⟨s, hs, by rw [if_neg hid]⟩
    · intro uid dto now db2 resp h
      obtain ⟨u0, hfind, hdb2, -⟩ := updateProfile_ok h
      exact ownersExist_map_users
        (profileUpdate_keeps_id dto now uid u0 (findUser_some hfind).2)
        (by rw [hdb2]) (by rw [hdb2]) hown
    · intro uid f now db2 resp h
      obtain ⟨u0, hfind, hdb2, -⟩ := updateProfilePicture_ok h
      have hu0 := (findUser_some hfind).2
      refine ownersExist_map_users ?_ (by rw [hdb2]) (by rw [hdb2]) hown
      intro v
      by_cases hid : v.id = uid
      · rw [if_pos hid, hid]
        exact hu0
      · rw [if_neg hid]
    · intro hash uid dto now db2 resp h
      obtain ⟨u0, hfind, -, hdb2, -⟩ := usersUpdate_ok h
      have hu0 := (findUser_some hfind).2
      refine ownersExist_map_users ?_ (by rw [hdb2]) (by rw [hdb2]) hown
      intro v
      by_cases hid : v.id = uid
      · rw [if_pos hid, hid]
        exact hu0
      · rw [if_neg hid]
    · intro uid role now db2 resp h
      obtain ⟨u0, r, hfind, -, hdb2, -⟩ := usersUpdateRole_ok h
      have hu0 := (findUser_some hfind).2
      refine ownersExist_map_users ?_ (by rw [hdb2]) (by rw [hdb2]) hown
      intro v
      by_cases hid : v.id = uid
      · rw [if_pos hid, hid]
        exact hu0
      · rw [if_neg hid]
    · intro uid db2 h
      obtain ⟨hu2, ht2, -, -⟩ := usersRemove_ok h
      exact ownersExist_remove hu2 ht2 hown

/-- Witness for C6: deleting account 1 removes alice and cascades to her
task, whose id then resolves to not-found for any requester. -/
theorem C6_witness :
    usersRemove dbEx 1 = .ok dbExAfter ∧
    findTask dbExAfter 1 = none ∧
    getTaskById dbExAfter 1 2 = .error (.notFound "Task not found") ∧
    (ownersExist dbEx → ownersExist dbExAfter) := by
  have hrem : usersRemove dbEx 1 = .ok dbExAfter := by rfl
  have hmain := (C6_cascade_delete dbEx 1).1 dbExAfter hrem
  refine ⟨hrem, ?_, ?_, hmain.2⟩
  · exact (hmain.1 (by unfold tasksIdUnique; decide) docTask (by decide) (by decide)).1
  · exact (hmain.1 (by unfold tasksIdUnique; decide) docTask (by decide) (by decide)).2 2

end TaskMS
